import Mathlib

/-!
Verification of the basketball mini-game physics component (the `Game`
React component): ball and hoop state, pointer input handlers, the
per-frame physics update with rim, wall and backboard collision handling,
and the score/miss events raised to the parent component.

Modelling conventions, stated once here:
* JavaScript numbers (IEEE-754 doubles) are idealised as exact rationals.
* `Math.hypot` is only ever compared against nonnegative bounds, so every
  such comparison is performed on squares (`Math.hypot dx dy < m` becomes
  `dx ^ 2 + dy ^ 2 < m ^ 2`); the square root value itself is needed only
  inside the rim bounce branch and is modelled by `ratSqrt`, which agrees
  with the real square root exactly when the radicand is the square of a
  rational.  Concrete evaluations below only ever reach that branch at
  such points, and general theorems about the branch carry the hypothesis
  that the radicand is an exact square.
* `onScore` / `onMiss` callbacks are modelled as event counters returned
  by `update`; `setTimeout(() => resetBall(), 400)` is modelled by the
  `resetScheduled` flag plus an explicit `Step.timeoutReset` step that can
  fire at any later step boundary.
-/

namespace BB

set_option maxRecDepth 4000

/-- Ball record of the game state (`state.ball` in the source). -/
structure Ball where
  x : ℚ
  y : ℚ
  vx : ℚ
  vy : ℚ
  radius : ℚ
  isDragging : Bool
  dragStartX : ℚ
  dragStartY : ℚ
  dragCurrentX : ℚ
  dragCurrentY : ℚ
  isLaunched : Bool
  canScore : Bool
  scored : Bool
  deriving DecidableEq

/-- Hoop record (`state.hoop`). -/
structure Hoop where
  x : ℚ
  y : ℚ
  radius : ℚ
  backboardWidth : ℚ
  thickness : ℚ
  deriving DecidableEq

/-- The game state owned by the component (`state` in the source). -/
structure GState where
  width : ℚ
  height : ℚ
  borderThickness : ℚ
  ball : Ball
  hoop : Hoop
  gravity : ℚ
  bounce : ℚ
  shotInFlight : Bool
  deriving DecidableEq

/-- Outbound effects of one `update` call: how many times the frame called
`onScore` and `onMiss`, and whether it scheduled the delayed
`setTimeout(() => resetBall(), 400)`. -/
structure Events where
  score : Nat
  miss : Nat
  resetScheduled : Bool
  deriving DecidableEq

/-- The state record as initialised in the component effect: ball radius
26, hoop radius 34 and thickness 6, gravity 0.35, bounce 0.7, border 2. -/
def initialState : GState :=
  { width := 0, height := 0, borderThickness := 2
    ball :=
      { x := 0, y := 0, vx := 0, vy := 0, radius := 26, isDragging := false
        dragStartX := 0, dragStartY := 0, dragCurrentX := 0, dragCurrentY := 0
        isLaunched := false, canScore := false, scored := false }
    hoop := { x := 0, y := 0, radius := 34, backboardWidth := 8, thickness := 6 }
    gravity := (35 : ℚ) / 100, bounce := (7 : ℚ) / 10, shotInFlight := false }

/-- `resetBall()`: ball back to the start position
`(0.5 * width, height - radius - max (0.05 * height) 24)` with zero
velocity and all per-shot flags cleared. -/
def resetBall (g : GState) : GState :=
  let b := g.ball
  let bottomMargin := max (g.height * ((5 : ℚ) / 100)) 24
  { g with
    ball :=
      { b with
        x := g.width * ((5 : ℚ) / 10)
        y := g.height - b.radius - bottomMargin
        vx := 0, vy := 0
        isDragging := false, isLaunched := false
        canScore := false, scored := false }
    shotInFlight := false }

/-- `handleResize()`: adopt the new viewport size, re-position the hoop at
`(0.5 * width, 0.2 * height)` and reset the ball. -/
def handleResize (g : GState) (w h : ℚ) : GState :=
  resetBall
    { g with width := w, height := h
             hoop := { g.hoop with x := w * ((5 : ℚ) / 10), y := h * ((2 : ℚ) / 10) } }

/-- `onPointerDown`: begin a drag when the pointer lies within the ball
radius of the ball centre.  The source compares
`Math.hypot (x - b.x) (y - b.y) <= b.radius`; both sides are nonnegative
(the radius is 26), so the comparison is performed on squares. -/
def onPointerDown (g : GState) (x y : ℚ) : GState :=
  let b := g.ball
  if (x - b.x) ^ 2 + (y - b.y) ^ 2 ≤ b.radius ^ 2 then
    { g with
      ball :=
        { b with isDragging := true
                 dragStartX := x, dragStartY := y
                 dragCurrentX := x, dragCurrentY := y } }
  else g

/-- `onPointerMove`: while dragging, track the current pointer position. -/
def onPointerMove (g : GState) (x y : ℚ) : GState :=
  if g.ball.isDragging = true then
    { g with ball := { g.ball with dragCurrentX := x, dragCurrentY := y } }
  else g

/-- `onPointerUp` (also bound to `pointercancel`): with drag vector
`d = current - start`, launch with velocity `d * ((6 : ℚ) / 100)` when
`Math.hypot dx dy > 5` (compared here on squares), else just end the
drag.  `speedScale = 0.06`. -/
def onPointerUp (g : GState) : GState :=
  if g.ball.isDragging = true then
    let b := g.ball
    let dx := b.dragCurrentX - b.dragStartX
    let dy := b.dragCurrentY - b.dragStartY
    if dx ^ 2 + dy ^ 2 > 25 then
      { g with
        ball :=
          { b with vx := dx * ((6 : ℚ) / 100), vy := dy * ((6 : ℚ) / 100)
                   isLaunched := true, canScore := false, scored := false
                   isDragging := false }
        shotInFlight := true }
    else { g with ball := { b with isDragging := false } }
  else g

/-- Newton iteration for the integer square root.  The fuel argument only
bounds the number of steps; the iteration stops by itself as soon as the
guess stops decreasing, exactly as in the standard integer square root. -/
def sqrtIter : Nat → Nat → Nat → Nat
  | 0, _, guess => guess
  | fuel + 1, n, guess =>
    let next := (guess + n / guess) / 2
    if next < guess then sqrtIter fuel n next else guess

/-- Integer square root (the usual Newton iteration, agreeing with
`Nat.sqrt`), written with explicit fuel so that it evaluates by
rewriting. -/
def natSqrt (n : Nat) : Nat := if n ≤ 1 then n else sqrtIter n n (n / 2)

/-- Exact model of `Math.sqrt` on rationals whose numerator and
denominator are perfect squares; all concrete evaluations in this file
reach it only at such points, and the general rim-bounce theorems carry
the hypothesis `ratSqrt d ^ 2 = d` pinning its value there. -/
def ratSqrt (q : ℚ) : ℚ := (natSqrt q.num.toNat : ℚ) / (natSqrt q.den : ℚ)

/-- Horizontal offset of the ball centre from the hoop centre (`dx` in
`handleRimCollision`). -/
def rimDx (g : GState) : ℚ := g.ball.x - g.hoop.x

/-- Vertical offset of the ball centre from the hoop centre (`dy` in
`handleRimCollision`). -/
def rimDy (g : GState) : ℚ := g.ball.y - g.hoop.y

/-- Combined collision radius `ball.radius + hoop.radius - hoop.thickness / 2`
(`minDist` in `handleRimCollision`). -/
def rimMinDist (g : GState) : ℚ :=
  g.ball.radius + g.hoop.radius - g.hoop.thickness / 2

/-- The rim collision candidate test: ball lower edge still above the
hoop y and centre distance below `rimMinDist` (distance compared on
squares). -/
def rimCandidate (g : GState) : Prop :=
  g.ball.y + g.ball.radius < g.hoop.y ∧
  rimDx g ^ 2 + rimDy g ^ 2 < rimMinDist g ^ 2

instance (g : GState) : Decidable (rimCandidate g) := by
  unfold rimCandidate; infer_instance

/-- `handleRimCollision()`: reflect the velocity about the collision
normal scaled by `1 + bounce` when the candidate test holds, the ball is
moving upward or is off-centre by more than `0.8 * hoop.radius`, and the
velocity is closing; then push the ball out along the normal by the
penetration depth.  Distance comparisons are on squares; the square root
is only taken inside the bounce branch. -/
def handleRimCollision (g : GState) : GState :=
  let b := g.ball
  let h := g.hoop
  let dx := b.x - h.x
  let dy := b.y - h.y
  let minDist := b.radius + h.radius - h.thickness / 2
  if b.y + b.radius < h.y ∧ dx ^ 2 + dy ^ 2 < minDist ^ 2 then
    let centralThreshold := h.radius * ((8 : ℚ) / 10)
    if b.vy < 0 ∨ |dx| > centralThreshold then
      let dist := ratSqrt (dx ^ 2 + dy ^ 2)
      let nx := dx / dist
      let ny := dy / dist
      let vDotN := b.vx * nx + b.vy * ny
      let b1 :=
        if vDotN < 0 then
          { b with vx := b.vx - (1 + g.bounce) * vDotN * nx
                   vy := b.vy - (1 + g.bounce) * vDotN * ny }
        else b
      let overlap := minDist - dist
      { g with ball := { b1 with x := b1.x + nx * overlap, y := b1.y + ny * overlap } }
    else g
  else g

/-- The trigger of `handleBackboardCollision()`: ball right edge past the
board line `hoop.x + hoop.radius`, centre within `hoop.y ± 50`, moving
rightward. -/
def backboardHit (g : GState) : Prop :=
  g.ball.x + g.ball.radius > g.hoop.x + g.hoop.radius ∧
  g.ball.y > g.hoop.y - 50 ∧ g.ball.y < g.hoop.y + 50 ∧ 0 < g.ball.vx

instance (g : GState) : Decidable (backboardHit g) := by
  unfold backboardHit; infer_instance

/-- `handleBackboardCollision()`: invert and dampen the horizontal
velocity and clamp the ball to the board surface.  (The source defines
this function but `update` never calls it.) -/
def handleBackboardCollision (g : GState) : GState :=
  if backboardHit g then
    { g with
      ball := { g.ball with x := g.hoop.x + g.hoop.radius - g.ball.radius
                            vx := -g.ball.vx * g.bounce } }
  else g

/-- First part of the launched-ball frame: gravity integration, position
integration, and the `canScore` latch
(`!b.canScore && b.vy < 0 && b.y + b.radius < hoop.y`). -/
def integrate (g : GState) : GState :=
  let b := g.ball
  let b1 := { b with vy := b.vy + g.gravity }
  let b2 := { b1 with x := b1.x + b1.vx, y := b1.y + b1.vy }
  let b3 :=
    if b2.canScore = false ∧ b2.vy < 0 ∧ b2.y + b2.radius < g.hoop.y then
      { b2 with canScore := true }
    else b2
  { g with ball := b3 }

/-- Left, right and top wall bounces of the frame (each clamps the
position and scales the reflected velocity component by `bounce`). -/
def applyWalls (g : GState) : GState :=
  let border := g.borderThickness
  let b := g.ball
  let b1 :=
    if b.x - b.radius < border then
      { b with x := border + b.radius, vx := |b.vx| * g.bounce }
    else b
  let b2 :=
    if b1.x + b1.radius > g.width - border then
      { b1 with x := g.width - border - b1.radius, vx := -|b1.vx| * g.bounce }
    else b1
  let b3 :=
    if b2.y - b2.radius < border then
      { b2 with y := border + b2.radius, vy := |b2.vy| * g.bounce }
    else b2
  { g with ball := b3 }

/-- Bottom wall contact (`b.y + b.radius > height - border`): an
unconditional miss. -/
def bottomHit (g : GState) : Prop :=
  g.ball.y + g.ball.radius > g.height - g.borderThickness

instance (g : GState) : Decidable (bottomHit g) := by
  unfold bottomHit; infer_instance

/-- The horizontal scoring window `(hoop.x - 0.8 * hoop.radius,
hoop.x + 0.8 * hoop.radius)`. -/
def inScoreWindow (g : GState) : Prop :=
  g.hoop.x - g.hoop.radius * ((8 : ℚ) / 10) < g.ball.x ∧
  g.ball.x < g.hoop.x + g.hoop.radius * ((8 : ℚ) / 10)

instance (g : GState) : Decidable (inScoreWindow g) := by
  unfold inScoreWindow; infer_instance

/-- The scoring condition of the frame: `canScore && !scored && vy > 0`
with the ball upper edge below the hoop y (`b.y - b.radius > hoop.y`) and
the centre inside the scoring window. -/
def scoreCond (g : GState) : Prop :=
  g.ball.canScore = true ∧ g.ball.scored = false ∧ 0 < g.ball.vy ∧
  g.ball.y - g.ball.radius > g.hoop.y ∧ inScoreWindow g

instance (g : GState) : Decidable (scoreCond g) := by
  unfold scoreCond; infer_instance

/-- The catch-all out-of-bounds miss condition (only while a shot is in
flight). -/
def oobCond (g : GState) : Prop :=
  g.shotInFlight = true ∧
  (g.ball.y - g.ball.radius > g.height ∨ g.ball.x + g.ball.radius < 0 ∨
    g.ball.x - g.ball.radius > g.width)

instance (g : GState) : Decidable (oobCond g) := by
  unfold oobCond; infer_instance

/-- `state.shotInFlight = false` as done by both miss paths just before
`resetBall()`. -/
def clearFlight (g : GState) : GState := { g with shotInFlight := false }

/-- `b.scored = true` as done when the scoring condition fires. -/
def markScored (g : GState) : GState :=
  { g with ball := { g.ball with scored := true } }

/-- The ball state inside `update` after gravity integration, the rim
collision and the left/right/top wall bounces, just before the bottom
wall, scoring and out-of-bounds checks. -/
def collidedState (g : GState) : GState :=
  applyWalls (handleRimCollision (integrate g))

/-- `update()`: one animation frame.  Does nothing unless the ball is
launched; otherwise integrates, resolves rim and wall collisions, treats
bottom contact as an immediate miss (returning early), then runs the
scoring check (which schedules the delayed reset) and the out-of-bounds
miss check. -/
def update (g : GState) : GState × Events :=
  if g.ball.isLaunched = true then
    let g1 := collidedState g
    if bottomHit g1 then
      (resetBall (clearFlight g1), ⟨0, 1, false⟩)
    else
      if scoreCond g1 then
        let g2 := markScored g1
        if oobCond g2 then (resetBall (clearFlight g2), ⟨1, 1, true⟩)
        else (g2, ⟨1, 0, true⟩)
      else
        if oobCond g1 then (resetBall (clearFlight g1), ⟨0, 1, false⟩)
        else (g1, ⟨0, 0, false⟩)
  else (g, ⟨0, 0, false⟩)

/-- The events that can hit the state during one shot (besides a new
launch, which by the glossary begins a new shot): an animation frame, the
delayed post-score reset timer firing, a viewport resize, and
pointer-down / pointer-move input. -/
inductive Step where
  | frame : Step
  | timeoutReset : Step
  | resize (w h : ℚ) : Step
  | pointerDown (x y : ℚ) : Step
  | pointerMove (x y : ℚ) : Step

/-- Apply one step, returning the new state and the number of `onScore`
and `onMiss` calls it made. -/
def doStep : Step → GState → GState × Nat × Nat
  | Step.frame, g => let p := update g; (p.1, p.2.score, p.2.miss)
  | Step.timeoutReset, g => (resetBall g, 0, 0)
  | Step.resize w h, g => (handleResize g w h, 0, 0)
  | Step.pointerDown x y, g => (onPointerDown g x y, 0, 0)
  | Step.pointerMove x y, g => (onPointerMove g x y, 0, 0)

/-- Run a list of steps, accumulating the `onScore` and `onMiss` call
counts. -/
def runSteps : List Step → GState → GState × Nat × Nat
  | [], g => (g, 0, 0)
  | s :: rest, g =>
    let p := doStep s g
    let q := runSteps rest p.1
    (q.1, p.2.1 + q.2.1, p.2.2 + q.2.2)

/-- The invariant of claim C9: a ball that is not launched has zero
velocity. -/
def velocityInv (g : GState) : Prop :=
  g.ball.isLaunched = false → g.ball.vx = 0 ∧ g.ball.vy = 0

instance (g : GState) : Decidable (velocityInv g) := by
  unfold velocityInv; infer_instance

/-! ### Concrete states used by the counterexamples and witnesses -/

/-- The state right after the viewport is sized to 800 x 600. -/
def rsState : GState :=
  { width := 800, height := 600, borderThickness := 2
    ball := { x := 400, y := 544, vx := 0, vy := 0, radius := 26, isDragging := false
              dragStartX := 0, dragStartY := 0, dragCurrentX := 0, dragCurrentY := 0
              isLaunched := false, canScore := false, scored := false }
    hoop := { x := 400, y := 120, radius := 34, backboardWidth := 8, thickness := 6 }
    gravity := (35 : ℚ) / 100, bounce := (7 : ℚ) / 10, shotInFlight := false }

/-- `rsState` after a pointer-down on the ball centre. -/
def pdState : GState :=
  { rsState with
    ball := { rsState.ball with
              isDragging := true, dragStartX := 400, dragStartY := 544,
              dragCurrentX := 400, dragCurrentY := 544 } }

/-- `pdState` after dragging to `(421, -72.5)`. -/
def pmState : GState :=
  { pdState with
    ball := { pdState.ball with dragCurrentX := 421, dragCurrentY := -145/2 } }

/-- In-flight states of the fast-crossing shot: position, velocity and the
`canScore` flag vary, everything else is fixed by the launch. -/
def c1Mk (x y vx vy : ℚ) (cs launched inFlight : Bool) : GState :=
  { width := 800, height := 600, borderThickness := 2
    ball := { x := x, y := y, vx := vx, vy := vy, radius := 26, isDragging := false
              dragStartX := 400, dragStartY := 544, dragCurrentX := 421, dragCurrentY := -145/2
              isLaunched := launched, canScore := cs, scored := false }
    hoop := { x := 400, y := 120, radius := 34, backboardWidth := 8, thickness := 6 }
    gravity := (35 : ℚ) / 100, bounce := (7 : ℚ) / 10, shotInFlight := inFlight }

/-- The fast-crossing shot: resize to 800 x 600, grab the ball at its
start position and release after dragging 21 px right and 616.5 px down
of screen origin direction (a hard, slightly rightward throw). -/
def launchC1 : GState :=
  onPointerUp (onPointerMove (onPointerDown (handleResize initialState 800 600) 400 544) 421 (-145/2))

def gFar : GState := c1Mk 100 300 0 0 false true true
def gCentral : GState := c1Mk 410 70 0 5 false true true
def gGraze : GState := c1Mk 430 80 1 0 false true true
def gGrazeIn : GState := c1Mk 430 80 (-1) 0 false true true

def gBoard : GState := c1Mk 420 150 5 ((193 : ℚ) / 20) false true true

def gLowCross : GState := c1Mk 300 ((2393 : ℚ) / 20) 0 (-10) false true true

def gLatch : GState := c1Mk 200 100 0 (-20) false true true

def gNearRim : GState := c1Mk 400 120 0 ((193 : ℚ) / 20) true true true

def gScoring : GState := c1Mk 400 140 0 ((193 : ℚ) / 20) true true true

def gFloor : GState := c1Mk 200 570 0 10 false true true

def grabState : GState :=
  { width := 800, height := 600, borderThickness := 2
    ball := { x := 300, y := 200, vx := 2, vy := -3, radius := 26, isDragging := true
              dragStartX := 300, dragStartY := 200, dragCurrentX := 340, dragCurrentY := 260
              isLaunched := true, canScore := true, scored := false }
    hoop := { x := 400, y := 120, radius := 34, backboardWidth := 8, thickness := 6 }
    gravity := (35 : ℚ) / 100, bounce := (7 : ℚ) / 10, shotInFlight := true }

/-! ### Basic facts about the operations -/


theorem resetBall_ball (g : GState) :
    (resetBall g).ball.vx = 0 ∧ (resetBall g).ball.vy = 0 ∧
    (resetBall g).ball.isLaunched = false ∧ (resetBall g).ball.canScore = false ∧
    (resetBall g).ball.scored = false ∧ (resetBall g).shotInFlight = false ∧
    (resetBall g).ball.x = g.width * ((5 : ℚ) / 10) ∧
    (resetBall g).ball.y = g.height - g.ball.radius - max (g.height * ((5 : ℚ) / 100)) 24 := by
  simp [resetBall]

theorem handleRimCollision_flags (g : GState) :
    (handleRimCollision g).ball.scored = g.ball.scored ∧
    (handleRimCollision g).ball.canScore = g.ball.canScore ∧
    (handleRimCollision g).ball.isLaunched = g.ball.isLaunched ∧
    (handleRimCollision g).ball.radius = g.ball.radius ∧
    (handleRimCollision g).width = g.width ∧
    (handleRimCollision g).height = g.height ∧
    (handleRimCollision g).borderThickness = g.borderThickness ∧
    (handleRimCollision g).hoop = g.hoop ∧
    (handleRimCollision g).gravity = g.gravity ∧
    (handleRimCollision g).bounce = g.bounce ∧
    (handleRimCollision g).shotInFlight = g.shotInFlight := by
  simp only [handleRimCollision]
  split
  · split
    · split <;> simp
    · simp
  · simp

theorem applyWalls_flags (g : GState) :
    (applyWalls g).ball.scored = g.ball.scored ∧
    (applyWalls g).ball.canScore = g.ball.canScore ∧
    (applyWalls g).ball.isLaunched = g.ball.isLaunched ∧
    (applyWalls g).ball.radius = g.ball.radius ∧
    (applyWalls g).width = g.width ∧
    (applyWalls g).height = g.height ∧
    (applyWalls g).borderThickness = g.borderThickness ∧
    (applyWalls g).hoop = g.hoop ∧
    (applyWalls g).gravity = g.gravity ∧
    (applyWalls g).bounce = g.bounce ∧
    (applyWalls g).shotInFlight = g.shotInFlight := by
  simp only [applyWalls]
  split <;> split <;> split <;> simp

theorem integrate_flags (g : GState) :
    (integrate g).ball.scored = g.ball.scored ∧
    (integrate g).ball.isLaunched = g.ball.isLaunched ∧
    (integrate g).ball.radius = g.ball.radius ∧
    (integrate g).ball.vx = g.ball.vx ∧
    (integrate g).width = g.width ∧
    (integrate g).height = g.height ∧
    (integrate g).borderThickness = g.borderThickness ∧
    (integrate g).hoop = g.hoop ∧
    (integrate g).gravity = g.gravity ∧
    (integrate g).bounce = g.bounce ∧
    (integrate g).shotInFlight = g.shotInFlight := by
  simp only [integrate]
  split <;> simp

theorem collidedState_flags (g : GState) :
    (collidedState g).ball.scored = g.ball.scored ∧
    (collidedState g).ball.isLaunched = g.ball.isLaunched ∧
    (collidedState g).ball.radius = g.ball.radius ∧
    (collidedState g).width = g.width ∧
    (collidedState g).height = g.height ∧
    (collidedState g).borderThickness = g.borderThickness ∧
    (collidedState g).hoop = g.hoop ∧
    (collidedState g).gravity = g.gravity ∧
    (collidedState g).bounce = g.bounce ∧
    (collidedState g).shotInFlight = g.shotInFlight := by
  obtain ⟨c1, c2, c3, c4, c5, c6, c7, c8, c9, c10, c11⟩ := integrate_flags g
  obtain ⟨b1, b2, b3, b4, b5, b6, b7, b8, b9, b10, b11⟩ :=
    handleRimCollision_flags (integrate g)
  obtain ⟨a1, a2, a3, a4, a5, a6, a7, a8, a9, a10, a11⟩ :=
    applyWalls_flags (handleRimCollision (integrate g))
  exact ⟨a1.trans (b1.trans c1), a3.trans (b3.trans c2), a4.trans (b4.trans c3),
    a5.trans (b5.trans c5), a6.trans (b6.trans c6), a7.trans (b7.trans c7),
    a8.trans (b8.trans c8), a9.trans (b9.trans c9), a10.trans (b10.trans c10),
    a11.trans (b11.trans c11)⟩



theorem update_not_launched (g : GState) (h : g.ball.isLaunched = false) :
    update g = (g, ⟨0, 0, false⟩) := by
  simp [update, h]

theorem update_score_le_one (g : GState) : (update g).2.score ≤ 1 := by
  simp only [update]
  split_ifs <;> simp

theorem update_miss_le_one (g : GState) : (update g).2.miss ≤ 1 := by
  simp only [update]
  split_ifs <;> simp

theorem update_miss_launched (g : GState) (h : (update g).2.miss ≠ 0) :
    (update g).1.ball.isLaunched = false := by
  simp only [update] at h ⊢
  split_ifs at h ⊢ <;> simp_all [resetBall]

theorem update_score_scored (g : GState) (h : g.ball.scored = true) :
    (update g).2.score = 0 := by
  have hs := (collidedState_flags g).1
  simp only [update]
  split_ifs with h1 h2 h3 h4 h5 <;> simp_all [scoreCond]

theorem update_dead (g : GState)
    (h : g.ball.scored = true ∨ g.ball.isLaunched = false) :
    (update g).2.score = 0 ∧
      ((update g).1.ball.scored = true ∨ (update g).1.ball.isLaunched = false) := by
  rcases h with h | h
  · refine ⟨update_score_scored g h, ?_⟩
    have hs := (collidedState_flags g).1
    have hl := (collidedState_flags g).2.1
    simp only [update]
    split_ifs <;> simp_all [resetBall, markScored, clearFlight, scoreCond]
  · rw [update_not_launched g h]
    exact ⟨rfl, Or.inr h⟩

theorem update_scored_persist (g : GState) (h : (update g).2.score ≠ 0) :
    (update g).1.ball.scored = true ∨ (update g).1.ball.isLaunched = false := by
  simp only [update] at h ⊢
  split_ifs at h ⊢ <;> simp_all [resetBall, markScored, clearFlight]



theorem onPointerDown_flags (g : GState) (x y : ℚ) :
    (onPointerDown g x y).ball.isLaunched = g.ball.isLaunched ∧
    (onPointerDown g x y).ball.scored = g.ball.scored ∧
    (onPointerDown g x y).ball.vx = g.ball.vx ∧
    (onPointerDown g x y).ball.vy = g.ball.vy := by
  simp only [onPointerDown]
  split <;> simp

theorem onPointerMove_flags (g : GState) (x y : ℚ) :
    (onPointerMove g x y).ball.isLaunched = g.ball.isLaunched ∧
    (onPointerMove g x y).ball.scored = g.ball.scored ∧
    (onPointerMove g x y).ball.vx = g.ball.vx ∧
    (onPointerMove g x y).ball.vy = g.ball.vy := by
  simp only [onPointerMove]
  split <;> simp

theorem handleResize_unlaunched (g : GState) (w h : ℚ) :
    (handleResize g w h).ball.isLaunched = false := by
  simp [handleResize, resetBall]

theorem doStep_silent (s : Step) (g : GState) (h : g.ball.isLaunched = false) :
    (doStep s g).1.ball.isLaunched = false ∧ (doStep s g).2.1 = 0 ∧ (doStep s g).2.2 = 0 := by
  cases s with
  | frame => simp [doStep, update_not_launched g h, h]
  | timeoutReset => simp [doStep, resetBall]
  | resize w h => simp [doStep, handleResize_unlaunched]
  | pointerDown x y => simp [doStep, (onPointerDown_flags g x y).1, h]
  | pointerMove x y => simp [doStep, (onPointerMove_flags g x y).1, h]

theorem runSteps_silent (l : List Step) (g : GState) (h : g.ball.isLaunched = false) :
    (runSteps l g).2.1 = 0 ∧ (runSteps l g).2.2 = 0 := by
  induction l generalizing g with
  | nil => simp [runSteps]
  | cons s rest ih =>
    obtain ⟨h1, h2, h3⟩ := doStep_silent s g h
    obtain ⟨i1, i2⟩ := ih (doStep s g).1 h1
    simp [runSteps, h2, h3, i1, i2]

theorem doStep_dead (s : Step) (g : GState)
    (h : g.ball.scored = true ∨ g.ball.isLaunched = false) :
    (doStep s g).2.1 = 0 ∧
      ((doStep s g).1.ball.scored = true ∨ (doStep s g).1.ball.isLaunched = false) := by
  cases s with
  | frame =>
    obtain ⟨h1, h2⟩ := update_dead g h
    simp [doStep, h1, h2]
  | timeoutReset => simp [doStep, resetBall]
  | resize w h => simp [doStep, handleResize_unlaunched]
  | pointerDown x y =>
    refine ⟨rfl, ?_⟩
    show (onPointerDown g x y).ball.scored = true ∨ (onPointerDown g x y).ball.isLaunched = false
    rw [(onPointerDown_flags g x y).1, (onPointerDown_flags g x y).2.1]
    exact h
  | pointerMove x y =>
    refine ⟨rfl, ?_⟩
    show (onPointerMove g x y).ball.scored = true ∨ (onPointerMove g x y).ball.isLaunched = false
    rw [(onPointerMove_flags g x y).1, (onPointerMove_flags g x y).2.1]
    exact h

theorem runSteps_score_dead (l : List Step) (g : GState)
    (h : g.ball.scored = true ∨ g.ball.isLaunched = false) :
    (runSteps l g).2.1 = 0 := by
  induction l generalizing g with
  | nil => simp [runSteps]
  | cons s rest ih =>
    obtain ⟨h1, h2⟩ := doStep_dead s g h
    simp [runSteps, h1, ih _ h2]

theorem runSteps_score_le_one (l : List Step) (g : GState) : (runSteps l g).2.1 ≤ 1 := by
  induction l generalizing g with
  | nil => simp [runSteps]
  | cons s rest ih =>
    cases s with
    | frame =>
      by_cases hz : (update g).2.score = 0
      · simpa [runSteps, doStep, hz] using ih (update g).1
      · have h1 : (update g).2.score = 1 :=
          le_antisymm (update_score_le_one g) (Nat.one_le_iff_ne_zero.mpr hz)
        have hd := update_scored_persist g hz
        have h0 := runSteps_score_dead rest (update g).1 hd
        simp [runSteps, doStep, h1, h0]
    | timeoutReset => simpa [runSteps, doStep] using ih (resetBall g)
    | resize w h => simpa [runSteps, doStep] using ih (handleResize g w h)
    | pointerDown x y => simpa [runSteps, doStep] using ih (onPointerDown g x y)
    | pointerMove x y => simpa [runSteps, doStep] using ih (onPointerMove g x y)

theorem runSteps_miss_le_one (l : List Step) (g : GState) : (runSteps l g).2.2 ≤ 1 := by
  induction l generalizing g with
  | nil => simp [runSteps]
  | cons s rest ih =>
    cases s with
    | frame =>
      by_cases hz : (update g).2.miss = 0
      · simpa [runSteps, doStep, hz] using ih (update g).1
      · have h1 : (update g).2.miss = 1 :=
          le_antisymm (update_miss_le_one g) (Nat.one_le_iff_ne_zero.mpr hz)
        have hd := update_miss_launched g hz
        have h0 := (runSteps_silent rest (update g).1 hd).2
        simp [runSteps, doStep, h1, h0]
    | timeoutReset => simpa [runSteps, doStep] using ih (resetBall g)
    | resize w h => simpa [runSteps, doStep] using ih (handleResize g w h)
    | pointerDown x y => simpa [runSteps, doStep] using ih (onPointerDown g x y)
    | pointerMove x y => simpa [runSteps, doStep] using ih (onPointerMove g x y)



theorem ratSqrt_nonneg (q : ℚ) : 0 ≤ ratSqrt q := by
  unfold ratSqrt
  positivity

theorem ratSqrt_2500 : ratSqrt 2500 = 50 := by
  have h1 : (2500 : ℚ).num.toNat = 2500 := rfl
  have h2 : (2500 : ℚ).den = 1 := rfl
  unfold ratSqrt
  rw [h1, h2]
  norm_num [show natSqrt 2500 = 50 from by decide, show natSqrt 1 = 1 from by decide]

theorem handleRimCollision_of_not_candidate (g : GState) (h : ¬ rimCandidate g) :
    handleRimCollision g = g := by
  simp only [rimCandidate, rimDx, rimDy, rimMinDist] at h
  simp only [handleRimCollision]
  rw [if_neg h]

theorem handleRimCollision_central (g : GState) (hcand : rimCandidate g)
    (hvy : ¬ g.ball.vy < 0)
    (hoff : ¬ |rimDx g| > g.hoop.radius * ((8 : ℚ) / 10)) :
    handleRimCollision g = g := by
  simp only [rimCandidate, rimDx, rimDy, rimMinDist] at hcand
  simp only [rimDx] at hoff
  simp only [handleRimCollision]
  rw [if_pos hcand, if_neg (not_or.mpr ⟨hvy, hoff⟩)]

theorem handleRimCollision_nonclosing (g : GState) (hcand : rimCandidate g)
    (hsb : g.ball.vy < 0 ∨ |rimDx g| > g.hoop.radius * ((8 : ℚ) / 10))
    (hnc : 0 ≤ g.ball.vx * rimDx g + g.ball.vy * rimDy g) :
    (handleRimCollision g).ball.vx = g.ball.vx ∧
    (handleRimCollision g).ball.vy = g.ball.vy := by
  have hvdn : ¬ (g.ball.vx * ((g.ball.x - g.hoop.x) / ratSqrt ((g.ball.x - g.hoop.x) ^ 2 + (g.ball.y - g.hoop.y) ^ 2)) +
      g.ball.vy * ((g.ball.y - g.hoop.y) / ratSqrt ((g.ball.x - g.hoop.x) ^ 2 + (g.ball.y - g.hoop.y) ^ 2)) < 0) := by
    have hexp : g.ball.vx * ((g.ball.x - g.hoop.x) / ratSqrt ((g.ball.x - g.hoop.x) ^ 2 + (g.ball.y - g.hoop.y) ^ 2)) +
        g.ball.vy * ((g.ball.y - g.hoop.y) / ratSqrt ((g.ball.x - g.hoop.x) ^ 2 + (g.ball.y - g.hoop.y) ^ 2))
        = (g.ball.vx * rimDx g + g.ball.vy * rimDy g) /
            ratSqrt ((g.ball.x - g.hoop.x) ^ 2 + (g.ball.y - g.hoop.y) ^ 2) := by
      simp only [rimDx, rimDy]
      ring
    rw [hexp]
    exact not_lt.mpr (div_nonneg hnc (ratSqrt_nonneg _))
  simp only [rimCandidate, rimDx, rimDy, rimMinDist] at hcand
  simp only [rimDx] at hsb
  simp only [handleRimCollision]
  rw [if_pos hcand, if_pos hsb, if_neg hvdn]
  constructor <;> rfl



theorem reflect_div_eq (s dx dy vx vy b : ℚ) (hs : s ≠ 0) (h2 : s ^ 2 = dx ^ 2 + dy ^ 2) :
    vx - (1 + b) * (vx * (dx / s) + vy * (dy / s)) * (dx / s)
      = vx - (1 + b) * ((vx * dx + vy * dy) / (dx ^ 2 + dy ^ 2)) * dx := by
  rw [← h2]
  field_simp
  ring

theorem handleRimCollision_bounce (g : GState) (hcand : rimCandidate g)
    (hsb : g.ball.vy < 0 ∨ |rimDx g| > g.hoop.radius * ((8 : ℚ) / 10))
    (hd : ratSqrt (rimDx g ^ 2 + rimDy g ^ 2) ^ 2 = rimDx g ^ 2 + rimDy g ^ 2)
    (hpos : 0 < rimDx g ^ 2 + rimDy g ^ 2)
    (hclose : g.ball.vx * rimDx g + g.ball.vy * rimDy g < 0) :
    (handleRimCollision g).ball.vx
        = g.ball.vx - (1 + g.bounce) *
            ((g.ball.vx * rimDx g + g.ball.vy * rimDy g) / (rimDx g ^ 2 + rimDy g ^ 2)) * rimDx g ∧
    (handleRimCollision g).ball.vy
        = g.ball.vy - (1 + g.bounce) *
            ((g.ball.vx * rimDx g + g.ball.vy * rimDy g) / (rimDx g ^ 2 + rimDy g ^ 2)) * rimDy g ∧
    (handleRimCollision g).ball.x
        = g.ball.x + rimDx g / ratSqrt (rimDx g ^ 2 + rimDy g ^ 2) *
            (rimMinDist g - ratSqrt (rimDx g ^ 2 + rimDy g ^ 2)) ∧
    (handleRimCollision g).ball.y
        = g.ball.y + rimDy g / ratSqrt (rimDx g ^ 2 + rimDy g ^ 2) *
            (rimMinDist g - ratSqrt (rimDx g ^ 2 + rimDy g ^ 2)) := by
  have hs0 : ratSqrt (rimDx g ^ 2 + rimDy g ^ 2) ≠ 0 := by
    intro h0
    rw [h0] at hd
    simp only [ne_eq, zero_pow, OfNat.ofNat_ne_zero, not_false_eq_true] at hd
    exact absurd hd.symm (ne_of_gt hpos)
  have hspos : 0 < ratSqrt (rimDx g ^ 2 + rimDy g ^ 2) :=
    lt_of_le_of_ne (ratSqrt_nonneg _) (Ne.symm hs0)
  have hvdn : g.ball.vx * ((g.ball.x - g.hoop.x) / ratSqrt ((g.ball.x - g.hoop.x) ^ 2 + (g.ball.y - g.hoop.y) ^ 2)) +
      g.ball.vy * ((g.ball.y - g.hoop.y) / ratSqrt ((g.ball.x - g.hoop.x) ^ 2 + (g.ball.y - g.hoop.y) ^ 2)) < 0 := by
    have hexp : g.ball.vx * ((g.ball.x - g.hoop.x) / ratSqrt ((g.ball.x - g.hoop.x) ^ 2 + (g.ball.y - g.hoop.y) ^ 2)) +
        g.ball.vy * ((g.ball.y - g.hoop.y) / ratSqrt ((g.ball.x - g.hoop.x) ^ 2 + (g.ball.y - g.hoop.y) ^ 2))
        = (g.ball.vx * rimDx g + g.ball.vy * rimDy g) /
            ratSqrt (rimDx g ^ 2 + rimDy g ^ 2) := by
      simp only [rimDx, rimDy]
      ring
    rw [hexp]
    exact div_neg_of_neg_of_pos hclose hspos
  have hcand2 := hcand
  simp only [rimCandidate, rimDx, rimDy, rimMinDist] at hcand2
  have hsb2 := hsb
  simp only [rimDx] at hsb2
  simp only [handleRimCollision]
  rw [if_pos hcand2, if_pos hsb2, if_pos hvdn]
  refine ⟨?_, ?_, ?_, ?_⟩
  · show g.ball.vx - (1 + g.bounce) * (g.ball.vx * ((g.ball.x - g.hoop.x) / ratSqrt ((g.ball.x - g.hoop.x) ^ 2 + (g.ball.y - g.hoop.y) ^ 2)) +
        g.ball.vy * ((g.ball.y - g.hoop.y) / ratSqrt ((g.ball.x - g.hoop.x) ^ 2 + (g.ball.y - g.hoop.y) ^ 2))) *
        ((g.ball.x - g.hoop.x) / ratSqrt ((g.ball.x - g.hoop.x) ^ 2 + (g.ball.y - g.hoop.y) ^ 2)) = _
    simp only [rimDx, rimDy] at hd hs0 ⊢
    exact reflect_div_eq _ _ _ _ _ _ hs0 hd
  · show g.ball.vy - (1 + g.bounce) * (g.ball.vx * ((g.ball.x - g.hoop.x) / ratSqrt ((g.ball.x - g.hoop.x) ^ 2 + (g.ball.y - g.hoop.y) ^ 2)) +
        g.ball.vy * ((g.ball.y - g.hoop.y) / ratSqrt ((g.ball.x - g.hoop.x) ^ 2 + (g.ball.y - g.hoop.y) ^ 2))) *
        ((g.ball.y - g.hoop.y) / ratSqrt ((g.ball.x - g.hoop.x) ^ 2 + (g.ball.y - g.hoop.y) ^ 2)) = _
    simp only [rimDx, rimDy] at hd hs0 ⊢
    have := reflect_div_eq (ratSqrt ((g.ball.x - g.hoop.x) ^ 2 + (g.ball.y - g.hoop.y) ^ 2))
      (g.ball.y - g.hoop.y) (g.ball.x - g.hoop.x) g.ball.vy g.ball.vx g.bounce hs0 (by linarith [hd])
    calc g.ball.vy - (1 + g.bounce) * (g.ball.vx * ((g.ball.x - g.hoop.x) / ratSqrt ((g.ball.x - g.hoop.x) ^ 2 + (g.ball.y - g.hoop.y) ^ 2)) +
          g.ball.vy * ((g.ball.y - g.hoop.y) / ratSqrt ((g.ball.x - g.hoop.x) ^ 2 + (g.ball.y - g.hoop.y) ^ 2))) *
          ((g.ball.y - g.hoop.y) / ratSqrt ((g.ball.x - g.hoop.x) ^ 2 + (g.ball.y - g.hoop.y) ^ 2))
        = g.ball.vy - (1 + g.bounce) * (g.ball.vy * ((g.ball.y - g.hoop.y) / ratSqrt ((g.ball.x - g.hoop.x) ^ 2 + (g.ball.y - g.hoop.y) ^ 2)) +
          g.ball.vx * ((g.ball.x - g.hoop.x) / ratSqrt ((g.ball.x - g.hoop.x) ^ 2 + (g.ball.y - g.hoop.y) ^ 2))) *
          ((g.ball.y - g.hoop.y) / ratSqrt ((g.ball.x - g.hoop.x) ^ 2 + (g.ball.y - g.hoop.y) ^ 2)) := by ring
      _ = g.ball.vy - (1 + g.bounce) * ((g.ball.vy * (g.ball.y - g.hoop.y) + g.ball.vx * (g.ball.x - g.hoop.x)) /
            ((g.ball.y - g.hoop.y) ^ 2 + (g.ball.x - g.hoop.x) ^ 2)) * (g.ball.y - g.hoop.y) := this
      _ = g.ball.vy - (1 + g.bounce) * ((g.ball.vx * (g.ball.x - g.hoop.x) + g.ball.vy * (g.ball.y - g.hoop.y)) /
            ((g.ball.x - g.hoop.x) ^ 2 + (g.ball.y - g.hoop.y) ^ 2)) * (g.ball.y - g.hoop.y) := by
          rw [add_comm ((g.ball.y - g.hoop.y) ^ 2), add_comm (g.ball.vy * (g.ball.y - g.hoop.y))]
  · simp only [rimDx, rimDy, rimMinDist]
  · simp only [rimDx, rimDy, rimMinDist]




theorem applyWalls_id (g : GState)
    (hl : ¬ (g.ball.x - g.ball.radius < g.borderThickness))
    (hrw : ¬ (g.ball.x + g.ball.radius > g.width - g.borderThickness))
    (ht : ¬ (g.ball.y - g.ball.radius < g.borderThickness)) :
    applyWalls g = g := by
  simp only [applyWalls]
  rw [if_neg hl, if_neg hrw, if_neg ht]

theorem c1Mk_integrate (x y vx vy : ℚ) (cs : Bool)
    (hlatch : cs = true ∨
      ¬ (vy + (35 : ℚ) / 100 < 0 ∧ (y + (vy + (35 : ℚ) / 100)) + 26 < 120)) :
    integrate (c1Mk x y vx vy cs true true)
      = c1Mk (x + vx) (y + (vy + (35 : ℚ) / 100)) vx (vy + (35 : ℚ) / 100) cs true true := by
  simp only [integrate, c1Mk]
  rw [if_neg]
  rcases hlatch with h | h
  · intro hx
    rw [h] at hx
    exact absurd hx.1 (by simp)
  · intro hx
    exact h ⟨hx.2.1, hx.2.2⟩

theorem c1Mk_integrate_latch (x y vx vy : ℚ)
    (htrig : vy + (35 : ℚ) / 100 < 0 ∧ (y + (vy + (35 : ℚ) / 100)) + 26 < 120) :
    integrate (c1Mk x y vx vy false true true)
      = c1Mk (x + vx) (y + (vy + (35 : ℚ) / 100)) vx (vy + (35 : ℚ) / 100) true true true := by
  simp only [integrate, c1Mk]
  rw [if_pos]
  exact ⟨trivial, htrig.1, htrig.2⟩

theorem c1Mk_not_candidate (x y vx vy : ℚ) (cs : Bool)
    (h : ¬ (y + 26 < 120 ∧ (x - 400) ^ 2 + (y - 120) ^ 2 < (26 + 34 - 6 / 2 : ℚ) ^ 2)) :
    ¬ rimCandidate (c1Mk x y vx vy cs true true) := by
  intro hc
  exact h ⟨hc.1, hc.2⟩

set_option maxHeartbeats 1000000 in
theorem c1Mk_collided (x y vx vy : ℚ) (cs : Bool)
    (hlatch : cs = true ∨
      ¬ (vy + (35 : ℚ) / 100 < 0 ∧ (y + (vy + (35 : ℚ) / 100)) + 26 < 120))
    (hnr : ¬ ((y + (vy + (35 : ℚ) / 100)) + 26 < 120 ∧
        ((x + vx) - 400) ^ 2 + ((y + (vy + (35 : ℚ) / 100)) - 120) ^ 2
          < (26 + 34 - 6 / 2 : ℚ) ^ 2))
    (hlw : ¬ ((x + vx) - 26 < 2))
    (hrw : ¬ ((x + vx) + 26 > 800 - 2))
    (htw : ¬ ((y + (vy + (35 : ℚ) / 100)) - 26 < 2)) :
    collidedState (c1Mk x y vx vy cs true true)
      = c1Mk (x + vx) (y + (vy + (35 : ℚ) / 100)) vx (vy + (35 : ℚ) / 100) cs true true := by
  unfold collidedState
  rw [c1Mk_integrate x y vx vy cs hlatch,
    handleRimCollision_of_not_candidate _ (c1Mk_not_candidate _ _ _ _ _ hnr),
    applyWalls_id _ hlw hrw htw]

theorem c1Mk_launched (x y vx vy : ℚ) (cs : Bool) :
    (c1Mk x y vx vy cs true true).ball.isLaunched = true := rfl

set_option maxHeartbeats 1000000 in
theorem c1Mk_update_free (x y vx vy : ℚ) (cs : Bool)
    (hlatch : cs = true ∨
      ¬ (vy + (35 : ℚ) / 100 < 0 ∧ (y + (vy + (35 : ℚ) / 100)) + 26 < 120))
    (hnr : ¬ ((y + (vy + (35 : ℚ) / 100)) + 26 < 120 ∧
        ((x + vx) - 400) ^ 2 + ((y + (vy + (35 : ℚ) / 100)) - 120) ^ 2
          < (26 + 34 - 6 / 2 : ℚ) ^ 2))
    (hlw : ¬ ((x + vx) - 26 < 2))
    (hrw : ¬ ((x + vx) + 26 > 800 - 2))
    (htw : ¬ ((y + (vy + (35 : ℚ) / 100)) - 26 < 2))
    (hbw : ¬ ((y + (vy + (35 : ℚ) / 100)) + 26 > 600 - 2))
    (hsc : ¬ (cs = true ∧ 0 < vy + (35 : ℚ) / 100 ∧
        (y + (vy + (35 : ℚ) / 100)) - 26 > 120 ∧
        400 - 34 * ((8 : ℚ) / 10) < x + vx ∧ x + vx < 400 + 34 * ((8 : ℚ) / 10))) :
    update (c1Mk x y vx vy cs true true)
      = (c1Mk (x + vx) (y + (vy + (35 : ℚ) / 100)) vx (vy + (35 : ℚ) / 100) cs true true,
         ⟨0, 0, false⟩) := by
  have hcol := c1Mk_collided x y vx vy cs hlatch hnr hlw hrw htw
  have hb2 : ¬ bottomHit
      (c1Mk (x + vx) (y + (vy + (35 : ℚ) / 100)) vx (vy + (35 : ℚ) / 100) cs true true) := by
    intro hb
    exact hbw hb
  have hs2 : ¬ scoreCond
      (c1Mk (x + vx) (y + (vy + (35 : ℚ) / 100)) vx (vy + (35 : ℚ) / 100) cs true true) := by
    intro hs
    exact hsc ⟨hs.1, hs.2.2.1, hs.2.2.2.1, hs.2.2.2.2.1, hs.2.2.2.2.2⟩
  have ho2 : ¬ oobCond
      (c1Mk (x + vx) (y + (vy + (35 : ℚ) / 100)) vx (vy + (35 : ℚ) / 100) cs true true) := by
    intro ho
    rcases ho.2 with h | h | h
    · have h2 : (y + (vy + (35 : ℚ) / 100)) - 26 > 600 := h
      apply hbw
      linarith
    · have h2 : (x + vx) + 26 < 0 := h
      apply hlw
      linarith
    · have h2 : (x + vx) - 26 > 800 := h
      apply hrw
      linarith
  simp only [update, c1Mk_launched, if_true]
  rw [hcol, if_neg hb2, if_neg hs2, if_neg ho2]



set_option maxHeartbeats 1000000 in
theorem c1Mk_collided_latch (x y vx vy : ℚ)
    (htrig : vy + (35 : ℚ) / 100 < 0 ∧ (y + (vy + (35 : ℚ) / 100)) + 26 < 120)
    (hnr : ¬ ((y + (vy + (35 : ℚ) / 100)) + 26 < 120 ∧
        ((x + vx) - 400) ^ 2 + ((y + (vy + (35 : ℚ) / 100)) - 120) ^ 2
          < (26 + 34 - 6 / 2 : ℚ) ^ 2))
    (hlw : ¬ ((x + vx) - 26 < 2))
    (hrw : ¬ ((x + vx) + 26 > 800 - 2))
    (htw : ¬ ((y + (vy + (35 : ℚ) / 100)) - 26 < 2)) :
    collidedState (c1Mk x y vx vy false true true)
      = c1Mk (x + vx) (y + (vy + (35 : ℚ) / 100)) vx (vy + (35 : ℚ) / 100) true true true := by
  unfold collidedState
  rw [c1Mk_integrate_latch x y vx vy htrig,
    handleRimCollision_of_not_candidate _ (c1Mk_not_candidate _ _ _ _ _ hnr),
    applyWalls_id _ hlw hrw htw]

set_option maxHeartbeats 1000000 in
theorem c1Mk_update_latch (x y vx vy : ℚ)
    (htrig : vy + (35 : ℚ) / 100 < 0 ∧ (y + (vy + (35 : ℚ) / 100)) + 26 < 120)
    (hnr : ¬ ((y + (vy + (35 : ℚ) / 100)) + 26 < 120 ∧
        ((x + vx) - 400) ^ 2 + ((y + (vy + (35 : ℚ) / 100)) - 120) ^ 2
          < (26 + 34 - 6 / 2 : ℚ) ^ 2))
    (hlw : ¬ ((x + vx) - 26 < 2))
    (hrw : ¬ ((x + vx) + 26 > 800 - 2))
    (htw : ¬ ((y + (vy + (35 : ℚ) / 100)) - 26 < 2)) :
    update (c1Mk x y vx vy false true true)
      = (c1Mk (x + vx) (y + (vy + (35 : ℚ) / 100)) vx (vy + (35 : ℚ) / 100) true true true,
         ⟨0, 0, false⟩) := by
  have hcol := c1Mk_collided_latch x y vx vy htrig hnr hlw hrw htw
  have hb2 : ¬ bottomHit
      (c1Mk (x + vx) (y + (vy + (35 : ℚ) / 100)) vx (vy + (35 : ℚ) / 100) true true true) := by
    intro hb
    have h2 : (y + (vy + (35 : ℚ) / 100)) + 26 > 600 - 2 := hb
    linarith [htrig.2]
  have hs2 : ¬ scoreCond
      (c1Mk (x + vx) (y + (vy + (35 : ℚ) / 100)) vx (vy + (35 : ℚ) / 100) true true true) := by
    intro hs
    have h2 : 0 < vy + (35 : ℚ) / 100 := hs.2.2.1
    linarith [htrig.1]
  have ho2 : ¬ oobCond
      (c1Mk (x + vx) (y + (vy + (35 : ℚ) / 100)) vx (vy + (35 : ℚ) / 100) true true true) := by
    intro ho
    rcases ho.2 with h | h | h
    · have h2 : (y + (vy + (35 : ℚ) / 100)) - 26 > 600 := h
      linarith [htrig.2]
    · have h2 : (x + vx) + 26 < 0 := h
      apply hlw
      linarith
    · have h2 : (x + vx) - 26 > 800 := h
      apply hrw
      linarith
  simp only [update, c1Mk_launched, if_true]
  rw [hcol, if_neg hb2, if_neg hs2, if_neg ho2]

theorem applyWalls_top (g : GState)
    (hl : ¬ (g.ball.x - g.ball.radius < g.borderThickness))
    (hrw : ¬ (g.ball.x + g.ball.radius > g.width - g.borderThickness))
    (ht : g.ball.y - g.ball.radius < g.borderThickness)
    (hneg : g.ball.vy < 0) :
    applyWalls g = { g with ball := { g.ball with
      y := g.borderThickness + g.ball.radius, vy := -g.ball.vy * g.bounce } } := by
  simp only [applyWalls]
  rw [if_neg hl, if_neg hrw, if_pos ht, abs_of_neg hneg]

set_option maxHeartbeats 1000000 in
theorem c1Mk_collided_top (x y vx vy : ℚ) (cs : Bool)
    (hlatch : cs = true ∨
      ¬ (vy + (35 : ℚ) / 100 < 0 ∧ (y + (vy + (35 : ℚ) / 100)) + 26 < 120))
    (hnr : ¬ ((y + (vy + (35 : ℚ) / 100)) + 26 < 120 ∧
        ((x + vx) - 400) ^ 2 + ((y + (vy + (35 : ℚ) / 100)) - 120) ^ 2
          < (26 + 34 - 6 / 2 : ℚ) ^ 2))
    (hlw : ¬ ((x + vx) - 26 < 2))
    (hrw : ¬ ((x + vx) + 26 > 800 - 2))
    (htw : (y + (vy + (35 : ℚ) / 100)) - 26 < 2)
    (hneg : vy + (35 : ℚ) / 100 < 0) :
    collidedState (c1Mk x y vx vy cs true true)
      = c1Mk (x + vx) (2 + 26) vx (-(vy + (35 : ℚ) / 100) * ((7 : ℚ) / 10)) cs true true := by
  unfold collidedState
  rw [c1Mk_integrate x y vx vy cs hlatch,
    handleRimCollision_of_not_candidate _ (c1Mk_not_candidate _ _ _ _ _ hnr),
    applyWalls_top _ hlw hrw htw hneg]
  rfl

set_option maxHeartbeats 1000000 in
theorem c1Mk_update_top (x y vx vy : ℚ) (cs : Bool)
    (hlatch : cs = true ∨
      ¬ (vy + (35 : ℚ) / 100 < 0 ∧ (y + (vy + (35 : ℚ) / 100)) + 26 < 120))
    (hnr : ¬ ((y + (vy + (35 : ℚ) / 100)) + 26 < 120 ∧
        ((x + vx) - 400) ^ 2 + ((y + (vy + (35 : ℚ) / 100)) - 120) ^ 2
          < (26 + 34 - 6 / 2 : ℚ) ^ 2))
    (hlw : ¬ ((x + vx) - 26 < 2))
    (hrw : ¬ ((x + vx) + 26 > 800 - 2))
    (htw : (y + (vy + (35 : ℚ) / 100)) - 26 < 2)
    (hneg : vy + (35 : ℚ) / 100 < 0) :
    update (c1Mk x y vx vy cs true true)
      = (c1Mk (x + vx) (2 + 26) vx (-(vy + (35 : ℚ) / 100) * ((7 : ℚ) / 10)) cs true true,
         ⟨0, 0, false⟩) := by
  have hcol := c1Mk_collided_top x y vx vy cs hlatch hnr hlw hrw htw hneg
  have hb2 : ¬ bottomHit
      (c1Mk (x + vx) (2 + 26) vx (-(vy + (35 : ℚ) / 100) * ((7 : ℚ) / 10)) cs true true) := by
    intro hb
    have h2 : ((2 : ℚ) + 26) + 26 > 600 - 2 := hb
    norm_num at h2
  have hs2 : ¬ scoreCond
      (c1Mk (x + vx) (2 + 26) vx (-(vy + (35 : ℚ) / 100) * ((7 : ℚ) / 10)) cs true true) := by
    intro hs
    have h2 : ((2 : ℚ) + 26) - 26 > 120 := hs.2.2.2.1
    norm_num at h2
  have ho2 : ¬ oobCond
      (c1Mk (x + vx) (2 + 26) vx (-(vy + (35 : ℚ) / 100) * ((7 : ℚ) / 10)) cs true true) := by
    intro ho
    rcases ho.2 with h | h | h
    · have h2 : ((2 : ℚ) + 26) - 26 > 600 := h
      norm_num at h2
    · have h2 : (x + vx) + 26 < 0 := h
      apply hlw
      linarith
    · have h2 : (x + vx) - 26 > 800 := h
      apply hrw
      linarith
  simp only [update, c1Mk_launched, if_true]
  rw [hcol, if_neg hb2, if_neg hs2, if_neg ho2]

set_option maxHeartbeats 1000000 in
theorem c1Mk_update_rimpass (x y vx vy : ℚ) (cs : Bool)
    (hcand : (y + (vy + (35 : ℚ) / 100)) + 26 < 120 ∧
        ((x + vx) - 400) ^ 2 + ((y + (vy + (35 : ℚ) / 100)) - 120) ^ 2
          < (26 + 34 - 6 / 2 : ℚ) ^ 2)
    (hnvy : ¬ (vy + (35 : ℚ) / 100 < 0))
    (hoffc : ¬ (|(x + vx) - 400| > 34 * ((8 : ℚ) / 10)))
    (hlw : ¬ ((x + vx) - 26 < 2))
    (hrw : ¬ ((x + vx) + 26 > 800 - 2))
    (htw : ¬ ((y + (vy + (35 : ℚ) / 100)) - 26 < 2)) :
    update (c1Mk x y vx vy cs true true)
      = (c1Mk (x + vx) (y + (vy + (35 : ℚ) / 100)) vx (vy + (35 : ℚ) / 100) cs true true,
         ⟨0, 0, false⟩) := by
  have hcand2 : rimCandidate
      (c1Mk (x + vx) (y + (vy + (35 : ℚ) / 100)) vx (vy + (35 : ℚ) / 100) cs true true) :=
    ⟨hcand.1, hcand.2⟩
  have hnvy2 : ¬ ((c1Mk (x + vx) (y + (vy + (35 : ℚ) / 100)) vx
      (vy + (35 : ℚ) / 100) cs true true).ball.vy < 0) := hnvy
  have hoffc2 : ¬ (|rimDx (c1Mk (x + vx) (y + (vy + (35 : ℚ) / 100)) vx
      (vy + (35 : ℚ) / 100) cs true true)| >
      (c1Mk (x + vx) (y + (vy + (35 : ℚ) / 100)) vx
        (vy + (35 : ℚ) / 100) cs true true).hoop.radius * ((8 : ℚ) / 10)) := hoffc
  have hcol : collidedState (c1Mk x y vx vy cs true true)
      = c1Mk (x + vx) (y + (vy + (35 : ℚ) / 100)) vx (vy + (35 : ℚ) / 100) cs true true := by
    unfold collidedState
    rw [c1Mk_integrate x y vx vy cs (Or.inr (by intro hx; exact hnvy hx.1)),
      handleRimCollision_central _ hcand2 hnvy2 hoffc2,
      applyWalls_id _ hlw hrw htw]
  have hb2 : ¬ bottomHit
      (c1Mk (x + vx) (y + (vy + (35 : ℚ) / 100)) vx (vy + (35 : ℚ) / 100) cs true true) := by
    intro hb
    have h2 : (y + (vy + (35 : ℚ) / 100)) + 26 > 600 - 2 := hb
    linarith [hcand.1]
  have hs2 : ¬ scoreCond
      (c1Mk (x + vx) (y + (vy + (35 : ℚ) / 100)) vx (vy + (35 : ℚ) / 100) cs true true) := by
    intro hs
    have h2 : (y + (vy + (35 : ℚ) / 100)) - 26 > 120 := hs.2.2.2.1
    linarith [hcand.1]
  have ho2 : ¬ oobCond
      (c1Mk (x + vx) (y + (vy + (35 : ℚ) / 100)) vx (vy + (35 : ℚ) / 100) cs true true) := by
    intro ho
    rcases ho.2 with h | h | h
    · have h2 : (y + (vy + (35 : ℚ) / 100)) - 26 > 600 := h
      linarith [hcand.1]
    · have h2 : (x + vx) + 26 < 0 := h
      apply hlw
      linarith
    · have h2 : (x + vx) - 26 > 800 := h
      apply hrw
      linarith
  simp only [update, c1Mk_launched, if_true]
  rw [hcol, if_neg hb2, if_neg hs2, if_neg ho2]

set_option maxHeartbeats 1000000 in
theorem c1Mk_update_bottom (x y vx vy : ℚ) (cs : Bool)
    (hlatch : cs = true ∨
      ¬ (vy + (35 : ℚ) / 100 < 0 ∧ (y + (vy + (35 : ℚ) / 100)) + 26 < 120))
    (hnr : ¬ ((y + (vy + (35 : ℚ) / 100)) + 26 < 120 ∧
        ((x + vx) - 400) ^ 2 + ((y + (vy + (35 : ℚ) / 100)) - 120) ^ 2
          < (26 + 34 - 6 / 2 : ℚ) ^ 2))
    (hlw : ¬ ((x + vx) - 26 < 2))
    (hrw : ¬ ((x + vx) + 26 > 800 - 2))
    (htw : ¬ ((y + (vy + (35 : ℚ) / 100)) - 26 < 2))
    (hbot : (y + (vy + (35 : ℚ) / 100)) + 26 > 600 - 2) :
    update (c1Mk x y vx vy cs true true)
      = (c1Mk 400 544 0 0 false false false, ⟨0, 1, false⟩) := by
  have hcol := c1Mk_collided x y vx vy cs hlatch hnr hlw hrw htw
  have hb2 : bottomHit
      (c1Mk (x + vx) (y + (vy + (35 : ℚ) / 100)) vx (vy + (35 : ℚ) / 100) cs true true) := hbot
  simp only [update, c1Mk_launched, if_true]
  rw [hcol, if_pos hb2]
  norm_num [resetBall, clearFlight, c1Mk, max_def, Prod.mk.injEq,
    GState.mk.injEq, Ball.mk.injEq, Hoop.mk.injEq]


theorem runSteps_append (l1 l2 : List Step) (g : GState) :
    runSteps (l1 ++ l2) g
      = ((runSteps l2 (runSteps l1 g).1).1,
         (runSteps l1 g).2.1 + (runSteps l2 (runSteps l1 g).1).2.1,
         (runSteps l1 g).2.2 + (runSteps l2 (runSteps l1 g).1).2.2) := by
  induction l1 generalizing g with
  | nil => simp [runSteps]
  | cons s rest ih => simp [runSteps, ih, Nat.add_assoc]

/-! ### The fast-crossing shot, frame by frame -/

theorem c1_resize_eq : handleResize initialState 800 600 = rsState := by
  norm_num [handleResize, resetBall, initialState, rsState, max_def,
    GState.mk.injEq, Ball.mk.injEq, Hoop.mk.injEq]


theorem c1_down_eq : onPointerDown rsState 400 544 = pdState := by
  norm_num [onPointerDown, rsState, pdState, GState.mk.injEq, Ball.mk.injEq, Hoop.mk.injEq]


theorem c1_move_eq : onPointerMove pdState 421 (-145/2) = pmState := by
  norm_num [onPointerMove, rsState, pdState, pmState, GState.mk.injEq, Ball.mk.injEq, Hoop.mk.injEq]


theorem c1_up_eq :
    onPointerUp pmState
      = c1Mk (400 : ℚ) (544 : ℚ) ((63 : ℚ) / 50) (-(3699 / 100) : ℚ) false true true := by
  norm_num [onPointerUp, rsState, pdState, pmState, c1Mk, GState.mk.injEq, Ball.mk.injEq,
    Hoop.mk.injEq]

theorem c1_launch_eq :
    launchC1
      = c1Mk (400 : ℚ) (544 : ℚ) ((63 : ℚ) / 50) (-(3699 / 100) : ℚ) false true true := by
  unfold launchC1
  rw [c1_resize_eq, c1_down_eq, c1_move_eq, c1_up_eq]

theorem runSteps_frame_cons (l : List Step) (g : GState) :
    runSteps (Step.frame :: l) g
      = ((runSteps l (update g).1).1,
         (update g).2.score + (runSteps l (update g).1).2.1,
         (update g).2.miss + (runSteps l (update g).1).2.2) := rfl

theorem runSteps_nil (g : GState) : runSteps [] g = (g, 0, 0) := rfl

theorem c1_u01 : update (c1Mk (400 : ℚ) (544 : ℚ) ((63 : ℚ) / 50) (-(3699 / 100) : ℚ) false true true)
    = (c1Mk ((20063 : ℚ) / 50) ((12684 : ℚ) / 25) ((63 : ℚ) / 50) (-(916 / 25) : ℚ) false true true, ⟨0, 0, false⟩) := by
  have h := c1Mk_update_free (400 : ℚ) (544 : ℚ) ((63 : ℚ) / 50) (-(3699 / 100) : ℚ) false (Or.inr (by norm_num)) (by norm_num) (by norm_num) (by norm_num) (by norm_num) (by norm_num) (by norm_num)
  norm_num at h
  exact h

theorem c1_u02 : update (c1Mk ((20063 : ℚ) / 50) ((12684 : ℚ) / 25) ((63 : ℚ) / 50) (-(916 / 25) : ℚ) false true true)
    = (c1Mk ((10063 : ℚ) / 25) ((47107 : ℚ) / 100) ((63 : ℚ) / 50) (-(3629 / 100) : ℚ) false true true, ⟨0, 0, false⟩) := by
  have h := c1Mk_update_free ((20063 : ℚ) / 50) ((12684 : ℚ) / 25) ((63 : ℚ) / 50) (-(916 / 25) : ℚ) false (Or.inr (by norm_num)) (by norm_num) (by norm_num) (by norm_num) (by norm_num) (by norm_num) (by norm_num)
  norm_num at h
  exact h

theorem c1_u03 : update (c1Mk ((10063 : ℚ) / 25) ((47107 : ℚ) / 100) ((63 : ℚ) / 50) (-(3629 / 100) : ℚ) false true true)
    = (c1Mk ((20189 : ℚ) / 50) ((43513 : ℚ) / 100) ((63 : ℚ) / 50) (-(1797 / 50) : ℚ) false true true, ⟨0, 0, false⟩) := by
  have h := c1Mk_update_free ((10063 : ℚ) / 25) ((47107 : ℚ) / 100) ((63 : ℚ) / 50) (-(3629 / 100) : ℚ) false (Or.inr (by norm_num)) (by norm_num) (by norm_num) (by norm_num) (by norm_num) (by norm_num) (by norm_num)
  norm_num at h
  exact h

theorem c1_u04 : update (c1Mk ((20189 : ℚ) / 50) ((43513 : ℚ) / 100) ((63 : ℚ) / 50) (-(1797 / 50) : ℚ) false true true)
    = (c1Mk ((10126 : ℚ) / 25) ((19977 : ℚ) / 50) ((63 : ℚ) / 50) (-(3559 / 100) : ℚ) false true true, ⟨0, 0, false⟩) := by
  have h := c1Mk_update_free ((20189 : ℚ) / 50) ((43513 : ℚ) / 100) ((63 : ℚ) / 50) (-(1797 / 50) : ℚ) false (Or.inr (by norm_num)) (by norm_num) (by norm_num) (by norm_num) (by norm_num) (by norm_num) (by norm_num)
  norm_num at h
  exact h

theorem c1_u05 : update (c1Mk ((10126 : ℚ) / 25) ((19977 : ℚ) / 50) ((63 : ℚ) / 50) (-(3559 / 100) : ℚ) false true true)
    = (c1Mk ((4063 : ℚ) / 10) ((3643 : ℚ) / 10) ((63 : ℚ) / 50) (-(881 / 25) : ℚ) false true true, ⟨0, 0, false⟩) := by
  have h := c1Mk_update_free ((10126 : ℚ) / 25) ((19977 : ℚ) / 50) ((63 : ℚ) / 50) (-(3559 / 100) : ℚ) false (Or.inr (by norm_num)) (by norm_num) (by norm_num) (by norm_num) (by norm_num) (by norm_num) (by norm_num)
  norm_num at h
  exact h

theorem c1_u06 : update (c1Mk ((4063 : ℚ) / 10) ((3643 : ℚ) / 10) ((63 : ℚ) / 50) (-(881 / 25) : ℚ) false true true)
    = (c1Mk ((10189 : ℚ) / 25) ((32941 : ℚ) / 100) ((63 : ℚ) / 50) (-(3489 / 100) : ℚ) false true true, ⟨0, 0, false⟩) := by
  have h := c1Mk_update_free ((4063 : ℚ) / 10) ((3643 : ℚ) / 10) ((63 : ℚ) / 50) (-(881 / 25) : ℚ) false (Or.inr (by norm_num)) (by norm_num) (by norm_num) (by norm_num) (by norm_num) (by norm_num) (by norm_num)
  norm_num at h
  exact h

theorem c1_u07 : update (c1Mk ((10189 : ℚ) / 25) ((32941 : ℚ) / 100) ((63 : ℚ) / 50) (-(3489 / 100) : ℚ) false true true)
    = (c1Mk ((20441 : ℚ) / 50) ((29487 : ℚ) / 100) ((63 : ℚ) / 50) (-(1727 / 50) : ℚ) false true true, ⟨0, 0, false⟩) := by
  have h := c1Mk_update_free ((10189 : ℚ) / 25) ((32941 : ℚ) / 100) ((63 : ℚ) / 50) (-(3489 / 100) : ℚ) false (Or.inr (by norm_num)) (by norm_num) (by norm_num) (by norm_num) (by norm_num) (by norm_num) (by norm_num)
  norm_num at h
  exact h

theorem c1_u08 : update (c1Mk ((20441 : ℚ) / 50) ((29487 : ℚ) / 100) ((63 : ℚ) / 50) (-(1727 / 50) : ℚ) false true true)
    = (c1Mk ((10252 : ℚ) / 25) ((6517 : ℚ) / 25) ((63 : ℚ) / 50) (-(3419 / 100) : ℚ) false true true, ⟨0, 0, false⟩) := by
  have h := c1Mk_update_free ((20441 : ℚ) / 50) ((29487 : ℚ) / 100) ((63 : ℚ) / 50) (-(1727 / 50) : ℚ) false (Or.inr (by norm_num)) (by norm_num) (by norm_num) (by norm_num) (by norm_num) (by norm_num) (by norm_num)
  norm_num at h
  exact h

theorem c1_u09 : update (c1Mk ((10252 : ℚ) / 25) ((6517 : ℚ) / 25) ((63 : ℚ) / 50) (-(3419 / 100) : ℚ) false true true)
    = (c1Mk ((20567 : ℚ) / 50) ((5671 : ℚ) / 25) ((63 : ℚ) / 50) (-(846 / 25) : ℚ) false true true, ⟨0, 0, false⟩) := by
  have h := c1Mk_update_free ((10252 : ℚ) / 25) ((6517 : ℚ) / 25) ((63 : ℚ) / 50) (-(3419 / 100) : ℚ) false (Or.inr (by norm_num)) (by norm_num) (by norm_num) (by norm_num) (by norm_num) (by norm_num) (by norm_num)
  norm_num at h
  exact h

theorem c1_u10 : update (c1Mk ((20567 : ℚ) / 50) ((5671 : ℚ) / 25) ((63 : ℚ) / 50) (-(846 / 25) : ℚ) false true true)
    = (c1Mk ((2063 : ℚ) / 5) ((3867 : ℚ) / 20) ((63 : ℚ) / 50) (-(3349 / 100) : ℚ) false true true, ⟨0, 0, false⟩) := by
  have h := c1Mk_update_free ((20567 : ℚ) / 50) ((5671 : ℚ) / 25) ((63 : ℚ) / 50) (-(846 / 25) : ℚ) false (Or.inr (by norm_num)) (by norm_num) (by norm_num) (by norm_num) (by norm_num) (by norm_num) (by norm_num)
  norm_num at h
  exact h

theorem c1_u11 : update (c1Mk ((2063 : ℚ) / 5) ((3867 : ℚ) / 20) ((63 : ℚ) / 50) (-(3349 / 100) : ℚ) false true true)
    = (c1Mk ((20693 : ℚ) / 50) ((16021 : ℚ) / 100) ((63 : ℚ) / 50) (-(1657 / 50) : ℚ) false true true, ⟨0, 0, false⟩) := by
  have h := c1Mk_update_free ((2063 : ℚ) / 5) ((3867 : ℚ) / 20) ((63 : ℚ) / 50) (-(3349 / 100) : ℚ) false (Or.inr (by norm_num)) (by norm_num) (by norm_num) (by norm_num) (by norm_num) (by norm_num) (by norm_num)
  norm_num at h
  exact h

theorem c1_u12 : update (c1Mk ((20693 : ℚ) / 50) ((16021 : ℚ) / 100) ((63 : ℚ) / 50) (-(1657 / 50) : ℚ) false true true)
    = (c1Mk ((10378 : ℚ) / 25) ((6371 : ℚ) / 50) ((63 : ℚ) / 50) (-(3279 / 100) : ℚ) false true true, ⟨0, 0, false⟩) := by
  have h := c1Mk_update_free ((20693 : ℚ) / 50) ((16021 : ℚ) / 100) ((63 : ℚ) / 50) (-(1657 / 50) : ℚ) false (Or.inr (by norm_num)) (by norm_num) (by norm_num) (by norm_num) (by norm_num) (by norm_num) (by norm_num)
  norm_num at h
  exact h

theorem c1_u13 : update (c1Mk ((10378 : ℚ) / 25) ((6371 : ℚ) / 50) ((63 : ℚ) / 50) (-(3279 / 100) : ℚ) false true true)
    = (c1Mk ((20819 : ℚ) / 50) ((4749 : ℚ) / 50) ((63 : ℚ) / 50) (-(811 / 25) : ℚ) false true true, ⟨0, 0, false⟩) := by
  have h := c1Mk_update_free ((10378 : ℚ) / 25) ((6371 : ℚ) / 50) ((63 : ℚ) / 50) (-(3279 / 100) : ℚ) false (Or.inr (by norm_num)) (by norm_num) (by norm_num) (by norm_num) (by norm_num) (by norm_num) (by norm_num)
  norm_num at h
  exact h

theorem c1_u14 : update (c1Mk ((20819 : ℚ) / 50) ((4749 : ℚ) / 50) ((63 : ℚ) / 50) (-(811 / 25) : ℚ) false true true)
    = (c1Mk ((10441 : ℚ) / 25) ((6289 : ℚ) / 100) ((63 : ℚ) / 50) (-(3209 / 100) : ℚ) true true true, ⟨0, 0, false⟩) := by
  have h := c1Mk_update_latch ((20819 : ℚ) / 50) ((4749 : ℚ) / 50) ((63 : ℚ) / 50) (-(811 / 25) : ℚ) (by norm_num) (by norm_num) (by norm_num) (by norm_num) (by norm_num)
  norm_num at h
  exact h

theorem c1_u15 : update (c1Mk ((10441 : ℚ) / 25) ((6289 : ℚ) / 100) ((63 : ℚ) / 50) (-(3209 / 100) : ℚ) true true true)
    = (c1Mk ((4189 : ℚ) / 10) ((623 : ℚ) / 20) ((63 : ℚ) / 50) (-(1587 / 50) : ℚ) true true true, ⟨0, 0, false⟩) := by
  have h := c1Mk_update_free ((10441 : ℚ) / 25) ((6289 : ℚ) / 100) ((63 : ℚ) / 50) (-(3209 / 100) : ℚ) true (Or.inl rfl) (by norm_num) (by norm_num) (by norm_num) (by norm_num) (by norm_num) (by norm_num)
  norm_num at h
  exact h

theorem c1_u16 : update (c1Mk ((4189 : ℚ) / 10) ((623 : ℚ) / 20) ((63 : ℚ) / 50) (-(1587 / 50) : ℚ) true true true)
    = (c1Mk ((10504 : ℚ) / 25) (28 : ℚ) ((63 : ℚ) / 50) ((21973 : ℚ) / 1000) true true true, ⟨0, 0, false⟩) := by
  have h := c1Mk_update_top ((4189 : ℚ) / 10) ((623 : ℚ) / 20) ((63 : ℚ) / 50) (-(1587 / 50) : ℚ) true (Or.inl rfl) (by norm_num) (by norm_num) (by norm_num) (by norm_num) (by norm_num)
  norm_num at h
  exact h

theorem c1_u17 : update (c1Mk ((10504 : ℚ) / 25) (28 : ℚ) ((63 : ℚ) / 50) ((21973 : ℚ) / 1000) true true true)
    = (c1Mk ((21071 : ℚ) / 50) ((50323 : ℚ) / 1000) ((63 : ℚ) / 50) ((22323 : ℚ) / 1000) true true true, ⟨0, 0, false⟩) := by
  have h := c1Mk_update_free ((10504 : ℚ) / 25) (28 : ℚ) ((63 : ℚ) / 50) ((21973 : ℚ) / 1000) true (Or.inl rfl) (by norm_num) (by norm_num) (by norm_num) (by norm_num) (by norm_num) (by norm_num)
  norm_num at h
  exact h

theorem c1_u18 : update (c1Mk ((21071 : ℚ) / 50) ((50323 : ℚ) / 1000) ((63 : ℚ) / 50) ((22323 : ℚ) / 1000) true true true)
    = (c1Mk ((10567 : ℚ) / 25) ((18249 : ℚ) / 250) ((63 : ℚ) / 50) ((22673 : ℚ) / 1000) true true true, ⟨0, 0, false⟩) := by
  have h := c1Mk_update_rimpass ((21071 : ℚ) / 50) ((50323 : ℚ) / 1000) ((63 : ℚ) / 50) ((22323 : ℚ) / 1000) true (by norm_num) (by norm_num) (by norm_num [abs_of_nonneg]) (by norm_num) (by norm_num) (by norm_num)
  norm_num at h
  exact h

theorem c1_u19 : update (c1Mk ((10567 : ℚ) / 25) ((18249 : ℚ) / 250) ((63 : ℚ) / 50) ((22673 : ℚ) / 1000) true true true)
    = (c1Mk ((21197 : ℚ) / 50) ((96019 : ℚ) / 1000) ((63 : ℚ) / 50) ((23023 : ℚ) / 1000) true true true, ⟨0, 0, false⟩) := by
  have h := c1Mk_update_free ((10567 : ℚ) / 25) ((18249 : ℚ) / 250) ((63 : ℚ) / 50) ((22673 : ℚ) / 1000) true (Or.inl rfl) (by norm_num) (by norm_num) (by norm_num) (by norm_num) (by norm_num) (by norm_num)
  norm_num at h
  exact h

theorem c1_u20 : update (c1Mk ((21197 : ℚ) / 50) ((96019 : ℚ) / 1000) ((63 : ℚ) / 50) ((23023 : ℚ) / 1000) true true true)
    = (c1Mk ((2126 : ℚ) / 5) ((14924 : ℚ) / 125) ((63 : ℚ) / 50) ((23373 : ℚ) / 1000) true true true, ⟨0, 0, false⟩) := by
  have h := c1Mk_update_free ((21197 : ℚ) / 50) ((96019 : ℚ) / 1000) ((63 : ℚ) / 50) ((23023 : ℚ) / 1000) true (Or.inl rfl) (by norm_num) (by norm_num) (by norm_num) (by norm_num) (by norm_num) (by norm_num)
  norm_num at h
  exact h

theorem c1_u21 : update (c1Mk ((2126 : ℚ) / 5) ((14924 : ℚ) / 125) ((63 : ℚ) / 50) ((23373 : ℚ) / 1000) true true true)
    = (c1Mk ((21323 : ℚ) / 50) ((28623 : ℚ) / 200) ((63 : ℚ) / 50) ((23723 : ℚ) / 1000) true true true, ⟨0, 0, false⟩) := by
  have h := c1Mk_update_free ((2126 : ℚ) / 5) ((14924 : ℚ) / 125) ((63 : ℚ) / 50) ((23373 : ℚ) / 1000) true (Or.inl rfl) (by norm_num) (by norm_num) (by norm_num) (by norm_num) (by norm_num) (by norm_num)
  norm_num at h
  exact h

theorem c1_u22 : update (c1Mk ((21323 : ℚ) / 50) ((28623 : ℚ) / 200) ((63 : ℚ) / 50) ((23723 : ℚ) / 1000) true true true)
    = (c1Mk ((10693 : ℚ) / 25) ((41797 : ℚ) / 250) ((63 : ℚ) / 50) ((24073 : ℚ) / 1000) true true true, ⟨0, 0, false⟩) := by
  have h := c1Mk_update_free ((21323 : ℚ) / 50) ((28623 : ℚ) / 200) ((63 : ℚ) / 50) ((23723 : ℚ) / 1000) true (Or.inl rfl) (by norm_num) (by norm_num) (by norm_num) (by norm_num) (by norm_num) (by norm_num)
  norm_num at h
  exact h

theorem c1_u23 : update (c1Mk ((10693 : ℚ) / 25) ((41797 : ℚ) / 250) ((63 : ℚ) / 50) ((24073 : ℚ) / 1000) true true true)
    = (c1Mk ((21449 : ℚ) / 50) ((191611 : ℚ) / 1000) ((63 : ℚ) / 50) ((24423 : ℚ) / 1000) true true true, ⟨0, 0, false⟩) := by
  have h := c1Mk_update_free ((10693 : ℚ) / 25) ((41797 : ℚ) / 250) ((63 : ℚ) / 50) ((24073 : ℚ) / 1000) true (Or.inl rfl) (by norm_num) (by norm_num) (by norm_num) (by norm_num) (by norm_num) (by norm_num)
  norm_num at h
  exact h

theorem c1_u24 : update (c1Mk ((21449 : ℚ) / 50) ((191611 : ℚ) / 1000) ((63 : ℚ) / 50) ((24423 : ℚ) / 1000) true true true)
    = (c1Mk ((10756 : ℚ) / 25) ((27048 : ℚ) / 125) ((63 : ℚ) / 50) ((24773 : ℚ) / 1000) true true true, ⟨0, 0, false⟩) := by
  have h := c1Mk_update_free ((21449 : ℚ) / 50) ((191611 : ℚ) / 1000) ((63 : ℚ) / 50) ((24423 : ℚ) / 1000) true (Or.inl rfl) (by norm_num) (by norm_num) (by norm_num) (by norm_num) (by norm_num) (by norm_num)
  norm_num at h
  exact h

theorem c1_u25 : update (c1Mk ((10756 : ℚ) / 25) ((27048 : ℚ) / 125) ((63 : ℚ) / 50) ((24773 : ℚ) / 1000) true true true)
    = (c1Mk ((863 : ℚ) / 2) ((241507 : ℚ) / 1000) ((63 : ℚ) / 50) ((25123 : ℚ) / 1000) true true true, ⟨0, 0, false⟩) := by
  have h := c1Mk_update_free ((10756 : ℚ) / 25) ((27048 : ℚ) / 125) ((63 : ℚ) / 50) ((24773 : ℚ) / 1000) true (Or.inl rfl) (by norm_num) (by norm_num) (by norm_num) (by norm_num) (by norm_num) (by norm_num)
  norm_num at h
  exact h

theorem c1_u26 : update (c1Mk ((863 : ℚ) / 2) ((241507 : ℚ) / 1000) ((63 : ℚ) / 50) ((25123 : ℚ) / 1000) true true true)
    = (c1Mk ((10819 : ℚ) / 25) ((13349 : ℚ) / 50) ((63 : ℚ) / 50) ((25473 : ℚ) / 1000) true true true, ⟨0, 0, false⟩) := by
  have h := c1Mk_update_free ((863 : ℚ) / 2) ((241507 : ℚ) / 1000) ((63 : ℚ) / 50) ((25123 : ℚ) / 1000) true (Or.inl rfl) (by norm_num) (by norm_num) (by norm_num) (by norm_num) (by norm_num) (by norm_num)
  norm_num at h
  exact h

theorem c1_u27 : update (c1Mk ((10819 : ℚ) / 25) ((13349 : ℚ) / 50) ((63 : ℚ) / 50) ((25473 : ℚ) / 1000) true true true)
    = (c1Mk ((21701 : ℚ) / 50) ((292803 : ℚ) / 1000) ((63 : ℚ) / 50) ((25823 : ℚ) / 1000) true true true, ⟨0, 0, false⟩) := by
  have h := c1Mk_update_free ((10819 : ℚ) / 25) ((13349 : ℚ) / 50) ((63 : ℚ) / 50) ((25473 : ℚ) / 1000) true (Or.inl rfl) (by norm_num) (by norm_num) (by norm_num) (by norm_num) (by norm_num) (by norm_num)
  norm_num at h
  exact h

theorem c1_u28 : update (c1Mk ((21701 : ℚ) / 50) ((292803 : ℚ) / 1000) ((63 : ℚ) / 50) ((25823 : ℚ) / 1000) true true true)
    = (c1Mk ((10882 : ℚ) / 25) ((39872 : ℚ) / 125) ((63 : ℚ) / 50) ((26173 : ℚ) / 1000) true true true, ⟨0, 0, false⟩) := by
  have h := c1Mk_update_free ((21701 : ℚ) / 50) ((292803 : ℚ) / 1000) ((63 : ℚ) / 50) ((25823 : ℚ) / 1000) true (Or.inl rfl) (by norm_num) (by norm_num) (by norm_num) (by norm_num) (by norm_num) (by norm_num)
  norm_num at h
  exact h

theorem c1_u29 : update (c1Mk ((10882 : ℚ) / 25) ((39872 : ℚ) / 125) ((63 : ℚ) / 50) ((26173 : ℚ) / 1000) true true true)
    = (c1Mk ((21827 : ℚ) / 50) ((345499 : ℚ) / 1000) ((63 : ℚ) / 50) ((26523 : ℚ) / 1000) true true true, ⟨0, 0, false⟩) := by
  have h := c1Mk_update_free ((10882 : ℚ) / 25) ((39872 : ℚ) / 125) ((63 : ℚ) / 50) ((26173 : ℚ) / 1000) true (Or.inl rfl) (by norm_num) (by norm_num) (by norm_num) (by norm_num) (by norm_num) (by norm_num)
  norm_num at h
  exact h

theorem c1_u30 : update (c1Mk ((21827 : ℚ) / 50) ((345499 : ℚ) / 1000) ((63 : ℚ) / 50) ((26523 : ℚ) / 1000) true true true)
    = (c1Mk ((2189 : ℚ) / 5) ((93093 : ℚ) / 250) ((63 : ℚ) / 50) ((26873 : ℚ) / 1000) true true true, ⟨0, 0, false⟩) := by
  have h := c1Mk_update_free ((21827 : ℚ) / 50) ((345499 : ℚ) / 1000) ((63 : ℚ) / 50) ((26523 : ℚ) / 1000) true (Or.inl rfl) (by norm_num) (by norm_num) (by norm_num) (by norm_num) (by norm_num) (by norm_num)
  norm_num at h
  exact h

theorem c1_u31 : update (c1Mk ((2189 : ℚ) / 5) ((93093 : ℚ) / 250) ((63 : ℚ) / 50) ((26873 : ℚ) / 1000) true true true)
    = (c1Mk ((21953 : ℚ) / 50) ((79919 : ℚ) / 200) ((63 : ℚ) / 50) ((27223 : ℚ) / 1000) true true true, ⟨0, 0, false⟩) := by
  have h := c1Mk_update_free ((2189 : ℚ) / 5) ((93093 : ℚ) / 250) ((63 : ℚ) / 50) ((26873 : ℚ) / 1000) true (Or.inl rfl) (by norm_num) (by norm_num) (by norm_num) (by norm_num) (by norm_num) (by norm_num)
  norm_num at h
  exact h

theorem c1_u32 : update (c1Mk ((21953 : ℚ) / 50) ((79919 : ℚ) / 200) ((63 : ℚ) / 50) ((27223 : ℚ) / 1000) true true true)
    = (c1Mk ((11008 : ℚ) / 25) ((53396 : ℚ) / 125) ((63 : ℚ) / 50) ((27573 : ℚ) / 1000) true true true, ⟨0, 0, false⟩) := by
  have h := c1Mk_update_free ((21953 : ℚ) / 50) ((79919 : ℚ) / 200) ((63 : ℚ) / 50) ((27223 : ℚ) / 1000) true (Or.inl rfl) (by norm_num) (by norm_num) (by norm_num) (by norm_num) (by norm_num) (by norm_num)
  norm_num at h
  exact h

theorem c1_u33 : update (c1Mk ((11008 : ℚ) / 25) ((53396 : ℚ) / 125) ((63 : ℚ) / 50) ((27573 : ℚ) / 1000) true true true)
    = (c1Mk ((22079 : ℚ) / 50) ((455091 : ℚ) / 1000) ((63 : ℚ) / 50) ((27923 : ℚ) / 1000) true true true, ⟨0, 0, false⟩) := by
  have h := c1Mk_update_free ((11008 : ℚ) / 25) ((53396 : ℚ) / 125) ((63 : ℚ) / 50) ((27573 : ℚ) / 1000) true (Or.inl rfl) (by norm_num) (by norm_num) (by norm_num) (by norm_num) (by norm_num) (by norm_num)
  norm_num at h
  exact h

theorem c1_u34 : update (c1Mk ((22079 : ℚ) / 50) ((455091 : ℚ) / 1000) ((63 : ℚ) / 50) ((27923 : ℚ) / 1000) true true true)
    = (c1Mk ((11071 : ℚ) / 25) ((120841 : ℚ) / 250) ((63 : ℚ) / 50) ((28273 : ℚ) / 1000) true true true, ⟨0, 0, false⟩) := by
  have h := c1Mk_update_free ((22079 : ℚ) / 50) ((455091 : ℚ) / 1000) ((63 : ℚ) / 50) ((27923 : ℚ) / 1000) true (Or.inl rfl) (by norm_num) (by norm_num) (by norm_num) (by norm_num) (by norm_num) (by norm_num)
  norm_num at h
  exact h

theorem c1_u35 : update (c1Mk ((11071 : ℚ) / 25) ((120841 : ℚ) / 250) ((63 : ℚ) / 50) ((28273 : ℚ) / 1000) true true true)
    = (c1Mk ((4441 : ℚ) / 10) ((511987 : ℚ) / 1000) ((63 : ℚ) / 50) ((28623 : ℚ) / 1000) true true true, ⟨0, 0, false⟩) := by
  have h := c1Mk_update_free ((11071 : ℚ) / 25) ((120841 : ℚ) / 250) ((63 : ℚ) / 50) ((28273 : ℚ) / 1000) true (Or.inl rfl) (by norm_num) (by norm_num) (by norm_num) (by norm_num) (by norm_num) (by norm_num)
  norm_num at h
  exact h

theorem c1_u36 : update (c1Mk ((4441 : ℚ) / 10) ((511987 : ℚ) / 1000) ((63 : ℚ) / 50) ((28623 : ℚ) / 1000) true true true)
    = (c1Mk ((11134 : ℚ) / 25) ((13524 : ℚ) / 25) ((63 : ℚ) / 50) ((28973 : ℚ) / 1000) true true true, ⟨0, 0, false⟩) := by
  have h := c1Mk_update_free ((4441 : ℚ) / 10) ((511987 : ℚ) / 1000) ((63 : ℚ) / 50) ((28623 : ℚ) / 1000) true (Or.inl rfl) (by norm_num) (by norm_num) (by norm_num) (by norm_num) (by norm_num) (by norm_num)
  norm_num at h
  exact h

theorem c1_u37 : update (c1Mk ((11134 : ℚ) / 25) ((13524 : ℚ) / 25) ((63 : ℚ) / 50) ((28973 : ℚ) / 1000) true true true)
    = (c1Mk ((22331 : ℚ) / 50) ((570283 : ℚ) / 1000) ((63 : ℚ) / 50) ((29323 : ℚ) / 1000) true true true, ⟨0, 0, false⟩) := by
  have h := c1Mk_update_free ((11134 : ℚ) / 25) ((13524 : ℚ) / 25) ((63 : ℚ) / 50) ((28973 : ℚ) / 1000) true (Or.inl rfl) (by norm_num) (by norm_num) (by norm_num) (by norm_num) (by norm_num) (by norm_num)
  norm_num at h
  exact h

theorem c1_u38 : update (c1Mk ((22331 : ℚ) / 50) ((570283 : ℚ) / 1000) ((63 : ℚ) / 50) ((29323 : ℚ) / 1000) true true true)
    = (c1Mk (400 : ℚ) (544 : ℚ) (0 : ℚ) (0 : ℚ) false false false, ⟨0, 1, false⟩) := by
  have h := c1Mk_update_bottom ((22331 : ℚ) / 50) ((570283 : ℚ) / 1000) ((63 : ℚ) / 50) ((29323 : ℚ) / 1000) true (Or.inl rfl) (by norm_num) (by norm_num) (by norm_num) (by norm_num) (by norm_num)
  norm_num at h
  exact h

theorem c1_r14 : runSteps (List.replicate 14 Step.frame) launchC1
    = (c1Mk ((10441 : ℚ) / 25) ((6289 : ℚ) / 100) ((63 : ℚ) / 50) (-(3209 / 100) : ℚ) true true true, 0, 0) := by
  simp only [c1_launch_eq, List.replicate_succ, List.replicate_zero, runSteps_frame_cons,
    runSteps_nil, c1_u01, c1_u02, c1_u03, c1_u04, c1_u05, c1_u06, c1_u07, c1_u08, c1_u09, c1_u10, c1_u11, c1_u12, c1_u13, c1_u14, Nat.add_zero, Nat.zero_add]

theorem c1_r20 : runSteps (List.replicate 20 Step.frame) launchC1
    = (c1Mk ((2126 : ℚ) / 5) ((14924 : ℚ) / 125) ((63 : ℚ) / 50) ((23373 : ℚ) / 1000) true true true, 0, 0) := by
  rw [show (20 : Nat) = 14 + 6 from rfl, List.replicate_add, runSteps_append, c1_r14]
  simp only [List.replicate_succ, List.replicate_zero, runSteps_frame_cons,
    runSteps_nil, c1_u15, c1_u16, c1_u17, c1_u18, c1_u19, c1_u20, Nat.add_zero, Nat.zero_add]

theorem c1_r21 : runSteps (List.replicate 21 Step.frame) launchC1
    = (c1Mk ((21323 : ℚ) / 50) ((28623 : ℚ) / 200) ((63 : ℚ) / 50) ((23723 : ℚ) / 1000) true true true, 0, 0) := by
  rw [show (21 : Nat) = 20 + 1 from rfl, List.replicate_add, runSteps_append, c1_r20]
  simp only [List.replicate_succ, List.replicate_zero, runSteps_frame_cons,
    runSteps_nil, c1_u21, Nat.add_zero, Nat.zero_add]

theorem c1_r38 : runSteps (List.replicate 38 Step.frame) launchC1
    = (c1Mk (400 : ℚ) (544 : ℚ) (0 : ℚ) (0 : ℚ) false false false, 0, 1) := by
  rw [show (38 : Nat) = 21 + 17 from rfl, List.replicate_add, runSteps_append, c1_r21]
  simp only [List.replicate_succ, List.replicate_zero, runSteps_frame_cons,
    runSteps_nil, c1_u22, c1_u23, c1_u24, c1_u25, c1_u26, c1_u27, c1_u28, c1_u29, c1_u30, c1_u31, c1_u32, c1_u33, c1_u34, c1_u35, c1_u36, c1_u37, c1_u38, Nat.add_zero, Nat.zero_add]

/-- C1 counterexample: a reachable shot (resize to 800 x 600, drag on the
ball, release) whose ball rises fully above the hoop y while moving
upward (frame 14), reverses off the top wall, and crosses the hoop line
downward with its centre inside the scoring window (frames 20 to 21), yet
the run makes zero `onScore` calls and one `onMiss` call before the ball
is reset by the bottom-wall miss at frame 38. -/
theorem c1_fast_crossing_counterexample :
    ((runSteps (List.replicate 14 Step.frame) launchC1).1.ball.vy < 0 ∧
      (runSteps (List.replicate 14 Step.frame) launchC1).1.ball.y +
          (runSteps (List.replicate 14 Step.frame) launchC1).1.ball.radius <
        (runSteps (List.replicate 14 Step.frame) launchC1).1.hoop.y) ∧
    (0 < (runSteps (List.replicate 21 Step.frame) launchC1).1.ball.vy ∧
      (runSteps (List.replicate 20 Step.frame) launchC1).1.ball.y <
        (runSteps (List.replicate 20 Step.frame) launchC1).1.hoop.y ∧
      (runSteps (List.replicate 21 Step.frame) launchC1).1.hoop.y <
        (runSteps (List.replicate 21 Step.frame) launchC1).1.ball.y ∧
      inScoreWindow (runSteps (List.replicate 20 Step.frame) launchC1).1 ∧
      inScoreWindow (runSteps (List.replicate 21 Step.frame) launchC1).1) ∧
    (runSteps (List.replicate 38 Step.frame) launchC1).2 = (0, 1) := by
  rw [c1_r14, c1_r20, c1_r21, c1_r38]
  norm_num [c1Mk, inScoreWindow]

/-! ### Single-frame evaluations of the other concrete states -/

theorem integrate_gBoard_eq :
    integrate gBoard = c1Mk 425 160 5 10 false true true := by
  have h := c1Mk_integrate 420 150 5 ((193 : ℚ) / 20) false (Or.inr (by norm_num))
  norm_num at h
  exact h

theorem collided_gBoard_eq :
    collidedState gBoard = c1Mk 425 160 5 10 false true true := by
  have h := c1Mk_collided 420 150 5 ((193 : ℚ) / 20) false (Or.inr (by norm_num))
    (by norm_num) (by norm_num) (by norm_num) (by norm_num)
  norm_num at h
  exact h

theorem update_gBoard_eq :
    update gBoard = (c1Mk 425 160 5 10 false true true, ⟨0, 0, false⟩) := by
  have h := c1Mk_update_free 420 150 5 ((193 : ℚ) / 20) false (Or.inr (by norm_num))
    (by norm_num) (by norm_num) (by norm_num) (by norm_num) (by norm_num) (by norm_num)
  norm_num at h
  exact h

theorem collided_gNearRim_eq :
    collidedState gNearRim = c1Mk 400 130 0 10 true true true := by
  have h := c1Mk_collided 400 120 0 ((193 : ℚ) / 20) true (Or.inl rfl)
    (by norm_num) (by norm_num) (by norm_num) (by norm_num)
  norm_num at h
  exact h

theorem update_gNearRim_eq :
    update gNearRim = (c1Mk 400 130 0 10 true true true, ⟨0, 0, false⟩) := by
  have h := c1Mk_update_free 400 120 0 ((193 : ℚ) / 20) true (Or.inl rfl)
    (by norm_num) (by norm_num) (by norm_num) (by norm_num) (by norm_num) (by norm_num)
  norm_num at h
  exact h

theorem integrate_gLowCross_eq :
    integrate gLowCross = c1Mk 300 110 0 (-(193 / 20) : ℚ) false true true := by
  have h := c1Mk_integrate 300 ((2393 : ℚ) / 20) 0 (-10) false (Or.inr (by norm_num))
  norm_num at h
  exact h

theorem update_gLowCross_eq :
    update gLowCross
      = (c1Mk 300 110 0 (-(193 / 20) : ℚ) false true true, ⟨0, 0, false⟩) := by
  have h := c1Mk_update_free 300 ((2393 : ℚ) / 20) 0 (-10) false (Or.inr (by norm_num))
    (by norm_num) (by norm_num) (by norm_num) (by norm_num) (by norm_num) (by norm_num)
  norm_num at h
  exact h

theorem integrate_gLatch_eq :
    integrate gLatch
      = c1Mk 200 ((1607 : ℚ) / 20) 0 (-(393 / 20) : ℚ) true true true := by
  have h := c1Mk_integrate_latch 200 100 0 (-20) (by norm_num)
  norm_num at h
  exact h

theorem update_gLatch_eq :
    update gLatch
      = (c1Mk 200 ((1607 : ℚ) / 20) 0 (-(393 / 20) : ℚ) true true true, ⟨0, 0, false⟩) := by
  have h := c1Mk_update_latch 200 100 0 (-20) (by norm_num)
    (by norm_num) (by norm_num) (by norm_num) (by norm_num)
  norm_num at h
  exact h

theorem collided_gScoring_eq :
    collidedState gScoring = c1Mk 400 150 0 10 true true true := by
  have h := c1Mk_collided 400 140 0 ((193 : ℚ) / 20) true (Or.inl rfl)
    (by norm_num) (by norm_num) (by norm_num) (by norm_num)
  norm_num at h
  exact h

theorem collided_gFloor_eq :
    collidedState gFloor
      = c1Mk 200 ((11607 : ℚ) / 20) 0 ((207 : ℚ) / 20) false true true := by
  have h := c1Mk_collided 200 570 0 10 false (Or.inr (by norm_num))
    (by norm_num) (by norm_num) (by norm_num) (by norm_num)
  norm_num at h
  exact h

/-! ### The claims -/



/-- C6: the rim collision implements the specified algorithm: a candidate
only when the ball's lower edge is above the hoop y and the centre distance
is below `ball.radius + hoop.radius - thickness / 2`; among candidates a
bounce only when moving upward or more than `0.8 * hoop.radius` off-centre
(so a central descending ball passes through unchanged); and when bouncing
with closing velocity, the velocity is reflected about the unit normal
`n = d / dist` scaled by `1 + bounce` (written here in the equivalent
division-free form over the squared distance) and the ball is pushed out
along the normal by the penetration depth. -/
theorem rimCollision_algorithm_spec (g : GState) (hr : 0 ≤ g.ball.radius) :
    (¬ rimCandidate g → handleRimCollision g = g) ∧
    (rimCandidate g → 0 < g.ball.vy → |rimDx g| ≤ g.hoop.radius * ((8 : ℚ) / 10) →
      handleRimCollision g = g) ∧
    (rimCandidate g →
      (g.ball.vy < 0 ∨ |rimDx g| > g.hoop.radius * ((8 : ℚ) / 10)) →
      ratSqrt (rimDx g ^ 2 + rimDy g ^ 2) ^ 2 = rimDx g ^ 2 + rimDy g ^ 2 →
      g.ball.vx * rimDx g + g.ball.vy * rimDy g < 0 →
      ((handleRimCollision g).ball.vx
          = g.ball.vx - (1 + g.bounce) *
              ((g.ball.vx * rimDx g + g.ball.vy * rimDy g) /
                (rimDx g ^ 2 + rimDy g ^ 2)) * rimDx g ∧
       (handleRimCollision g).ball.vy
          = g.ball.vy - (1 + g.bounce) *
              ((g.ball.vx * rimDx g + g.ball.vy * rimDy g) /
                (rimDx g ^ 2 + rimDy g ^ 2)) * rimDy g ∧
       (handleRimCollision g).ball.x
          = g.ball.x + rimDx g / ratSqrt (rimDx g ^ 2 + rimDy g ^ 2) *
              (rimMinDist g - ratSqrt (rimDx g ^ 2 + rimDy g ^ 2)) ∧
       (handleRimCollision g).ball.y
          = g.ball.y + rimDy g / ratSqrt (rimDx g ^ 2 + rimDy g ^ 2) *
              (rimMinDist g - ratSqrt (rimDx g ^ 2 + rimDy g ^ 2)))) := by
  refine ⟨handleRimCollision_of_not_candidate g, ?_, ?_⟩
  · intro hc hvy hoff
    exact handleRimCollision_central g hc (not_lt.mpr (le_of_lt hvy)) (not_lt.mpr hoff)
  · intro hc hsb hd hclose
    have hdy : rimDy g < 0 := by
      have h1 := hc.1
      simp only [rimDy]
      linarith
    have hpos : 0 < rimDx g ^ 2 + rimDy g ^ 2 := by
      nlinarith [sq_nonneg (rimDx g)]
    exact handleRimCollision_bounce g hc hsb hd hpos hclose

theorem rimCollision_algorithm_spec_witness :
    handleRimCollision gFar = gFar ∧
    handleRimCollision gCentral = gCentral ∧
    (handleRimCollision gGrazeIn).ball.vx = (-97 : ℚ) / 250 := by
  refine ⟨?_, ?_, ?_⟩
  · exact (rimCollision_algorithm_spec gFar (by norm_num [gFar, c1Mk])).1
      (by norm_num [rimCandidate, rimDx, rimDy, rimMinDist, gFar, c1Mk])
  · exact (rimCollision_algorithm_spec gCentral (by norm_num [gCentral, c1Mk])).2.1
      (by norm_num [rimCandidate, rimDx, rimDy, rimMinDist, gCentral, c1Mk])
      (by norm_num [gCentral, c1Mk])
      (by norm_num [rimDx, gCentral, c1Mk, abs_of_nonneg])
  · have harg : rimDx gGrazeIn ^ 2 + rimDy gGrazeIn ^ 2 = 2500 := by
      norm_num [rimDx, rimDy, gGrazeIn, c1Mk]
    have h := (rimCollision_algorithm_spec gGrazeIn (by norm_num [gGrazeIn, c1Mk])).2.2
      (by norm_num [rimCandidate, rimDx, rimDy, rimMinDist, gGrazeIn, c1Mk])
      (Or.inr (by norm_num [rimDx, gGrazeIn, c1Mk, abs_of_nonneg]))
      (by rw [harg, ratSqrt_2500]; norm_num)
      (by norm_num [rimDx, rimDy, gGrazeIn, c1Mk])
    rw [h.1, harg]
    norm_num [rimDx, rimDy, gGrazeIn, c1Mk]

/-- C7 counterexample: this ball is within rim collision distance, its
lower edge is above the hoop y, and its horizontal offset 30 exceeds
`0.8 * 34 = 27.2`, yet the rim collision leaves its velocity `(1, 0)`
unchanged: the velocity is not closing (the ball moves away from the hoop
centre), so only the position push-out happens and the ball is not
deflected. -/
theorem offCenter_pass_counterexample :
    rimCandidate gGraze ∧
    |rimDx gGraze| > gGraze.hoop.radius * ((8 : ℚ) / 10) ∧
    (handleRimCollision gGraze).ball.vx = gGraze.ball.vx ∧
    (handleRimCollision gGraze).ball.vy = gGraze.ball.vy := by
  have h := handleRimCollision_nonclosing gGraze
    (by norm_num [rimCandidate, rimDx, rimDy, rimMinDist, gGraze, c1Mk])
    (Or.inr (by norm_num [rimDx, gGraze, c1Mk, abs_of_nonneg]))
    (by norm_num [rimDx, rimDy, gGraze, c1Mk])
  exact ⟨by norm_num [rimCandidate, rimDx, rimDy, rimMinDist, gGraze, c1Mk],
    by norm_num [rimDx, gGraze, c1Mk, abs_of_nonneg], h.1, h.2⟩

/-- C7 (amended): a ball within rim collision distance (lower edge above
the hoop y), off-centre by more than `0.8 * hoop.radius`, whose velocity
is moreover closing on the hoop centre, has its velocity changed by the
rim collision. -/
theorem offCenter_closing_deflects (g : GState) (hh : 0 ≤ g.hoop.radius)
    (hcand : rimCandidate g)
    (hoff : |rimDx g| > g.hoop.radius * ((8 : ℚ) / 10))
    (hd : ratSqrt (rimDx g ^ 2 + rimDy g ^ 2) ^ 2 = rimDx g ^ 2 + rimDy g ^ 2)
    (hclose : g.ball.vx * rimDx g + g.ball.vy * rimDy g < 0)
    (hb : -1 < g.bounce) :
    ¬ ((handleRimCollision g).ball.vx = g.ball.vx ∧
       (handleRimCollision g).ball.vy = g.ball.vy) := by
  have hdx0 : rimDx g ≠ 0 := by
    intro h0
    rw [h0] at hoff
    simp only [abs_zero] at hoff
    nlinarith [mul_nonneg hh (show (0:ℚ) ≤ (8 : ℚ) / 10 by norm_num)]
  have hpos : 0 < rimDx g ^ 2 + rimDy g ^ 2 := by
    rcases hdx0.lt_or_lt with h | h <;> nlinarith [sq_nonneg (rimDy g)]
  have hb' := handleRimCollision_bounce g hcand (Or.inr hoff) hd hpos hclose
  intro hcon
  have hvx := hcon.1
  rw [hb'.1] at hvx
  have hz : (1 + g.bounce) *
      ((g.ball.vx * rimDx g + g.ball.vy * rimDy g) / (rimDx g ^ 2 + rimDy g ^ 2)) * rimDx g
      = 0 := by linarith
  have hdiv : (g.ball.vx * rimDx g + g.ball.vy * rimDy g) / (rimDx g ^ 2 + rimDy g ^ 2) < 0 :=
    div_neg_of_neg_of_pos hclose hpos
  rcases mul_eq_zero.mp hz with h' | h'
  · rcases mul_eq_zero.mp h' with h'' | h''
    · linarith
    · exact absurd h'' (ne_of_lt hdiv)
  · exact hdx0 h'

theorem offCenter_closing_deflects_witness :
    ¬ ((handleRimCollision gGrazeIn).ball.vx = gGrazeIn.ball.vx ∧
       (handleRimCollision gGrazeIn).ball.vy = gGrazeIn.ball.vy) := by
  have harg : rimDx gGrazeIn ^ 2 + rimDy gGrazeIn ^ 2 = 2500 := by
    norm_num [rimDx, rimDy, gGrazeIn, c1Mk]
  exact offCenter_closing_deflects gGrazeIn (by norm_num [gGrazeIn, c1Mk])
    (by norm_num [rimCandidate, rimDx, rimDy, rimMinDist, gGrazeIn, c1Mk])
    (by norm_num [rimDx, gGrazeIn, c1Mk, abs_of_nonneg])
    (by rw [harg, ratSqrt_2500]; norm_num)
    (by norm_num [rimDx, rimDy, gGrazeIn, c1Mk])
    (by norm_num [gGrazeIn, c1Mk])



theorem applyWalls_no_lr (g : GState)
    (hl : ¬ (g.ball.x - g.ball.radius < g.borderThickness))
    (hrw : ¬ (g.ball.x + g.ball.radius > g.width - g.borderThickness)) :
    (applyWalls g).ball.vx = g.ball.vx := by
  simp only [applyWalls]
  rw [if_neg hl, if_neg hrw]
  split <;> rfl

/-- C8 counterexample: after integration this launched ball satisfies the
backboard trigger (right edge past `hoop.x + hoop.radius = 434`, centre
within `hoop.y ± 50`, moving rightward), yet the frame update leaves its
horizontal velocity at 5 — neither inverted and dampened to
`-5 * 0.7 = -3.5` nor clamped to the board surface — because `update`
never invokes `handleBackboardCollision`. -/
theorem backboard_unused_counterexample :
    backboardHit (collidedState gBoard) ∧
    (update gBoard).1.ball.vx = 5 ∧
    ¬ (update gBoard).1.ball.vx = -(5 : ℚ) * ((7 : ℚ) / 10) ∧
    ¬ (update gBoard).1.ball.x
        = gBoard.hoop.x + gBoard.hoop.radius - gBoard.ball.radius := by
  rw [collided_gBoard_eq, update_gBoard_eq]
  norm_num [backboardHit, gBoard, c1Mk]

/-- C8 (amended): `handleBackboardCollision` does invert and dampen the
horizontal velocity and clamp the ball to the board surface whenever its
trigger holds, but the per-frame `update` never invokes it: in a frame
with no rim candidate, no left/right wall contact and no miss, the
horizontal velocity is unchanged even though the ball crosses the
backboard segment. -/
theorem handleBackboardCollision_spec (g : GState)
    (hbb : backboardHit (collidedState g))
    (hL : g.ball.isLaunched = true)
    (hm : (update g).2.miss = 0)
    (hnr : ¬ rimCandidate (integrate g))
    (hlw : ¬ ((integrate g).ball.x - (integrate g).ball.radius < g.borderThickness))
    (hrw : ¬ ((integrate g).ball.x + (integrate g).ball.radius > g.width - g.borderThickness)) :
    ((handleBackboardCollision (collidedState g)).ball.vx
        = -(collidedState g).ball.vx * g.bounce ∧
     (handleBackboardCollision (collidedState g)).ball.x
        = g.hoop.x + g.hoop.radius - (collidedState g).ball.radius) ∧
    (update g).1.ball.vx = g.ball.vx := by
  obtain ⟨fs, fl, frad, fw, fh, fb, fhp, fg, fbc, fsf⟩ := collidedState_flags g
  constructor
  · constructor
    · simp only [handleBackboardCollision]
      rw [if_pos hbb]
      simp [fbc]
    · simp only [handleBackboardCollision]
      rw [if_pos hbb]
      simp [fhp]
  · have hvx1 : (collidedState g).ball.vx = g.ball.vx := by
      unfold collidedState
      rw [handleRimCollision_of_not_candidate _ hnr]
      have hlw2 : ¬ ((integrate g).ball.x - (integrate g).ball.radius
          < (integrate g).borderThickness) := by
        rw [(integrate_flags g).2.2.2.2.2.2.1]
        exact hlw
      have hrw2 : ¬ ((integrate g).ball.x + (integrate g).ball.radius
          > (integrate g).width - (integrate g).borderThickness) := by
        rw [(integrate_flags g).2.2.2.2.1, (integrate_flags g).2.2.2.2.2.2.1]
        exact hrw
      rw [applyWalls_no_lr _ hlw2 hrw2]
      exact (integrate_flags g).2.2.2.1
    simp only [update] at hm ⊢
    split_ifs at hm ⊢ <;> simp_all [markScored]

theorem handleBackboardCollision_spec_witness :
    (handleBackboardCollision (collidedState gBoard)).ball.vx
        = -(collidedState gBoard).ball.vx * gBoard.bounce ∧
    (update gBoard).1.ball.vx = gBoard.ball.vx := by
  have h := handleBackboardCollision_spec gBoard
    (by rw [collided_gBoard_eq]; norm_num [backboardHit, c1Mk])
    (by norm_num [gBoard, c1Mk])
    (by rw [update_gBoard_eq])
    (by rw [integrate_gBoard_eq]; norm_num [rimCandidate, rimDx, rimDy, rimMinDist, c1Mk])
    (by rw [integrate_gBoard_eq]; norm_num [gBoard, c1Mk])
    (by rw [integrate_gBoard_eq]; norm_num [gBoard, c1Mk])
  exact ⟨h.1.1, h.2⟩


/-- C3 counterexample: at this launched frame the ball's upper edge
(y - radius = 84) has risen above the hoop's y = 120 while still moving
upward (vy = -9.65 < 0) and `canScore` is false, so the claim says this
frame sets `canScore`; but the code requires the lower edge
(y + radius = 136) above the hoop's y, and leaves `canScore` false. -/
theorem canScore_upper_edge_counterexample :
    gLowCross.ball.isLaunched = true ∧ gLowCross.ball.canScore = false ∧
    (integrate gLowCross).ball.vy < 0 ∧
    (integrate gLowCross).ball.y - (integrate gLowCross).ball.radius < gLowCross.hoop.y ∧
    (update gLowCross).2.miss = 0 ∧
    (update gLowCross).1.ball.canScore = false := by
  rw [integrate_gLowCross_eq, update_gLowCross_eq]
  norm_num [gLowCross, c1Mk]

/-- C3 (amended): in a launched frame that does not fire a miss,
`canScore` holds after the update exactly when it already held or the
freshly integrated ball is moving upward (vy < 0) with its lower edge
(y + radius) above the hoop's y; in particular the flag never resets
during the shot, so it flips false-to-true at most once per shot. -/
theorem update_canScore_latch (g : GState) (hL : g.ball.isLaunched = true)
    (hm : (update g).2.miss = 0) :
    ((update g).1.ball.canScore = true ↔
      (g.ball.canScore = true ∨
        ((integrate g).ball.vy < 0 ∧
          (integrate g).ball.y + (integrate g).ball.radius < g.hoop.y))) := by
  have hint : (integrate g).ball.canScore = true ↔
      (g.ball.canScore = true ∨
        ((integrate g).ball.vy < 0 ∧
          (integrate g).ball.y + (integrate g).ball.radius < g.hoop.y)) := by
    simp only [integrate]
    split_ifs with h
    · constructor
      · intro _
        exact Or.inr ⟨h.2.1, h.2.2⟩
      · intro _
        rfl
    · constructor
      · intro hx
        exact Or.inl hx
      · intro hx
        rcases hx with hx | hx
        · exact hx
        · by_contra hcs
          have hcs2 : g.ball.canScore = false := by
            simpa using hcs
          exact h ⟨hcs2, hx.1, hx.2⟩
  have hrim := (handleRimCollision_flags (integrate g)).2.1
  have hwalls := (applyWalls_flags (handleRimCollision (integrate g))).2.1
  have hfin : (update g).1.ball.canScore = (collidedState g).ball.canScore := by
    simp only [update] at hm ⊢
    split_ifs at hm ⊢ <;> simp_all [markScored]
  rw [hfin]
  unfold collidedState
  rw [hwalls, hrim]
  exact hint


theorem update_canScore_latch_witness :
    (update gLatch).1.ball.canScore = true := by
  have h := update_canScore_latch gLatch (by norm_num [gLatch, c1Mk])
    (by rw [update_gLatch_eq])
  exact h.mpr (Or.inr (by rw [integrate_gLatch_eq]; norm_num [gLatch, c1Mk]))


/-- C2 counterexample: after integration this launched ball satisfies
every condition of the claim as worded — `canScore`, not `scored`,
`vy = 10 > 0`, the lower edge `y + radius = 156` below the hoop's
`y = 120`, and `x = 400` inside the scoring window — and the frame is not
a bottom-wall miss; yet no `onScore` fires, because the code demands the
upper edge below the hoop's y (`y - radius > hoop.y`, here `104 > 120`
fails). -/
theorem score_lower_edge_counterexample :
    ((collidedState gNearRim).ball.canScore = true ∧
     (collidedState gNearRim).ball.scored = false ∧
     0 < (collidedState gNearRim).ball.vy ∧
     (collidedState gNearRim).ball.y + (collidedState gNearRim).ball.radius
        > gNearRim.hoop.y ∧
     inScoreWindow (collidedState gNearRim) ∧
     ¬ bottomHit (collidedState gNearRim)) ∧
    (update gNearRim).2.score = 0 ∧ (update gNearRim).1.ball.scored = false := by
  rw [collided_gNearRim_eq, update_gNearRim_eq]
  norm_num [inScoreWindow, bottomHit, gNearRim, c1Mk]

/-- C2 (amended): in a launched frame that does not hit the bottom wall
(and whose scoring window lies inside the horizontal play area), `onScore`
fires exactly when the post-collision ball satisfies `canScore`, not yet
`scored`, `vy > 0`, upper edge `y - radius` below the hoop's y, and x
inside the window `hoop.x ± 0.8 * hoop.radius`; on firing, `scored` is set
and the ball reset is only scheduled (the ball is not reset in this
frame and stays launched). -/
theorem update_score_iff (g : GState) (hL : g.ball.isLaunched = true)
    (hb : ¬ bottomHit (collidedState g))
    (hr : 0 ≤ g.ball.radius) (hbd : 0 ≤ g.borderThickness)
    (hw1 : -g.ball.radius ≤ g.hoop.x - g.hoop.radius * ((8 : ℚ) / 10))
    (hw2 : g.hoop.x + g.hoop.radius * ((8 : ℚ) / 10) ≤ g.width + g.ball.radius) :
    ((update g).2.score = 1 ↔ scoreCond (collidedState g)) ∧
    (scoreCond (collidedState g) →
      (update g).1 = markScored (collidedState g) ∧
      (update g).2.resetScheduled = true ∧
      (update g).2.miss = 0 ∧
      (update g).1.ball.isLaunched = true) := by
  obtain ⟨fs, fl, frad, fw, fh, fb, fhp, fg, fbc, fsf⟩ := collidedState_flags g
  by_cases hsc : scoreCond (collidedState g)
  · have hoob : ¬ oobCond (markScored (collidedState g)) := by
      intro ho
      have hy := hsc.2.2.2.1
      have hwin := hsc.2.2.2.2
      have hx1 := hwin.1
      have hx2 := hwin.2
      rw [fhp] at hx1 hx2
      have hbh : ¬ ((collidedState g).ball.y + (collidedState g).ball.radius
          > (collidedState g).height - (collidedState g).borderThickness) := hb
      rw [fh, fb, frad] at hbh
      push_neg at hbh
      have hcase := ho.2
      rcases hcase with hc | hc | hc
      · have : (markScored (collidedState g)).ball.y = (collidedState g).ball.y := rfl
        rw [this] at hc
        have h2 : (markScored (collidedState g)).ball.radius
            = (collidedState g).ball.radius := rfl
        rw [h2, frad] at hc
        have h3 : (markScored (collidedState g)).height = (collidedState g).height := rfl
        rw [h3, fh] at hc
        linarith
      · have h2 : (markScored (collidedState g)).ball.x = (collidedState g).ball.x := rfl
        have h3 : (markScored (collidedState g)).ball.radius
            = (collidedState g).ball.radius := rfl
        rw [h2, h3, frad] at hc
        linarith
      · have h2 : (markScored (collidedState g)).ball.x = (collidedState g).ball.x := rfl
        have h3 : (markScored (collidedState g)).ball.radius
            = (collidedState g).ball.radius := rfl
        have h4 : (markScored (collidedState g)).width = (collidedState g).width := rfl
        rw [h2, h3, h4, frad, fw] at hc
        linarith
    have h1 : update g = (markScored (collidedState g), ⟨1, 0, true⟩) := by
      simp only [update]
      split_ifs <;> simp_all
    rw [h1]
    refine ⟨by simp [hsc], fun _ => ⟨rfl, rfl, rfl, ?_⟩⟩
    show (markScored (collidedState g)).ball.isLaunched = true
    have h2 : (markScored (collidedState g)).ball.isLaunched
        = (collidedState g).ball.isLaunched := rfl
    rw [h2, fl]
    exact hL
  · have h0 : (update g).2.score = 0 := by
      simp only [update]
      split_ifs <;> simp_all
    exact ⟨by simp [h0, hsc], fun h => absurd h hsc⟩


theorem update_score_iff_witness :
    (update gScoring).2.score = 1 ∧ (update gScoring).2.resetScheduled = true ∧
    (update gScoring).1.ball.isLaunched = true := by
  have hsc : scoreCond (collidedState gScoring) := by
    rw [collided_gScoring_eq]
    norm_num [scoreCond, inScoreWindow, c1Mk]
  have h := update_score_iff gScoring (by norm_num [gScoring, c1Mk])
    (by rw [collided_gScoring_eq]; norm_num [bottomHit, c1Mk])
    (by norm_num [gScoring, c1Mk]) (by norm_num [gScoring, c1Mk])
    (by norm_num [gScoring, c1Mk]) (by norm_num [gScoring, c1Mk])
  exact ⟨h.1.mpr hsc, (h.2 hsc).2.1, (h.2 hsc).2.2.2⟩

/-- C4: on pointer-up (or pointer-cancel) while dragging, with drag vector
`d = current - start`: if `|d| > 5` (checked on squares) the velocity
becomes exactly `d * 0.06`, the ball is launched and a shot is marked in
flight, and the drag ends; if `|d| ≤ 5` the state is unchanged except that
the drag ends — in particular no shot is launched and the velocity keeps
its previous (zero, for an idle drag) value. -/
theorem onPointerUp_launch_spec (g : GState) (hd : g.ball.isDragging = true) :
    ((g.ball.dragCurrentX - g.ball.dragStartX) ^ 2 +
        (g.ball.dragCurrentY - g.ball.dragStartY) ^ 2 > 25 →
      (onPointerUp g).ball.vx
          = (g.ball.dragCurrentX - g.ball.dragStartX) * ((6 : ℚ) / 100) ∧
      (onPointerUp g).ball.vy
          = (g.ball.dragCurrentY - g.ball.dragStartY) * ((6 : ℚ) / 100) ∧
      (onPointerUp g).ball.isLaunched = true ∧
      (onPointerUp g).shotInFlight = true ∧
      (onPointerUp g).ball.isDragging = false) ∧
    (¬ ((g.ball.dragCurrentX - g.ball.dragStartX) ^ 2 +
        (g.ball.dragCurrentY - g.ball.dragStartY) ^ 2 > 25) →
      onPointerUp g = { g with ball := { g.ball with isDragging := false } }) := by
  constructor
  · intro h
    simp only [onPointerUp]
    rw [if_pos hd, if_pos h]
    exact ⟨rfl, rfl, rfl, rfl, rfl⟩
  · intro h
    simp only [onPointerUp]
    rw [if_pos hd, if_neg h]

theorem onPointerUp_launch_spec_witness :
    (onPointerUp pmState).ball.isLaunched = true ∧
    (onPointerUp pmState).shotInFlight = true ∧
    (onPointerUp pmState).ball.vx = ((21 : ℚ)) * ((6 : ℚ) / 100) := by
  have h := (onPointerUp_launch_spec pmState
    (by norm_num [pmState, pdState, rsState])).1
    (by norm_num [pmState, pdState, rsState])
  refine ⟨h.2.2.1, h.2.2.2.1, ?_⟩
  rw [h.1]
  norm_num [pmState, pdState, rsState]

/-- C5: a frame of a launched ball whose post-collision bottom edge
crosses the bottom boundary fires exactly one `onMiss` (and no `onScore`,
and schedules no reset), clears the in-flight flag, resets the ball to the
exact start position `(0.5 * width, height - radius - max (0.05 * height) 24)`
with zero velocity, and performs no further processing: the frame's final
state is exactly the reset of the post-collision state. -/
theorem bottom_contact_miss_reset (g : GState) (hL : g.ball.isLaunched = true)
    (hb : bottomHit (collidedState g)) :
    (update g).2 = ⟨0, 1, false⟩ ∧
    (update g).1 = resetBall (clearFlight (collidedState g)) ∧
    (update g).1.ball.x = g.width * ((5 : ℚ) / 10) ∧
    (update g).1.ball.y = g.height - g.ball.radius - max (g.height * ((5 : ℚ) / 100)) 24 ∧
    (update g).1.ball.vx = 0 ∧ (update g).1.ball.vy = 0 ∧
    (update g).1.ball.isLaunched = false ∧ (update g).1.shotInFlight = false := by
  obtain ⟨fs, fl, frad, fw, fh, fb, fhp, fg, fbc, fsf⟩ := collidedState_flags g
  have h1 : update g = (resetBall (clearFlight (collidedState g)), ⟨0, 1, false⟩) := by
    simp only [update]
    split_ifs <;> simp_all
  rw [h1]
  refine ⟨rfl, rfl, ?_, ?_, rfl, rfl, rfl, rfl⟩
  · show (clearFlight (collidedState g)).width * ((5 : ℚ) / 10) = _
    rw [show (clearFlight (collidedState g)).width = (collidedState g).width from rfl, fw]
  · show (clearFlight (collidedState g)).height
        - (clearFlight (collidedState g)).ball.radius
        - max ((clearFlight (collidedState g)).height * ((5 : ℚ) / 100)) 24 = _
    rw [show (clearFlight (collidedState g)).height = (collidedState g).height from rfl,
      show (clearFlight (collidedState g)).ball.radius
        = (collidedState g).ball.radius from rfl, fh, frad]


theorem bottom_contact_miss_reset_witness :
    (update gFloor).2 = ⟨0, 1, false⟩ ∧ (update gFloor).1.ball.y = 544 := by
  have h := bottom_contact_miss_reset gFloor (by norm_num [gFloor, c1Mk])
    (by rw [collided_gFloor_eq]; norm_num [bottomHit, c1Mk])
  refine ⟨h.1, ?_⟩
  rw [h.2.2.2.1]
  norm_num [gFloor, c1Mk, max_def]

/-- C9: the invariant "a ball that is not launched has zero velocity" is
preserved by every operation: pointer-down, pointer-move, pointer-up, the
per-frame update, the ball reset, and a viewport resize. -/
theorem velocity_zero_unless_launched (g : GState) (w h x y : ℚ)
    (hg : velocityInv g) :
    velocityInv (onPointerDown g x y) ∧ velocityInv (onPointerMove g x y) ∧
    velocityInv (onPointerUp g) ∧ velocityInv (update g).1 ∧
    velocityInv (resetBall g) ∧ velocityInv (handleResize g w h) := by
  refine ⟨?_, ?_, ?_, ?_, ?_, ?_⟩
  · intro hN
    obtain ⟨l, s, hvx, hvy⟩ := onPointerDown_flags g x y
    rw [hvx, hvy]
    exact hg (l.symm.trans hN)
  · intro hN
    obtain ⟨l, s, hvx, hvy⟩ := onPointerMove_flags g x y
    rw [hvx, hvy]
    exact hg (l.symm.trans hN)
  · intro hN
    simp only [onPointerUp] at hN ⊢
    split_ifs at hN ⊢ <;>
      first
      | exact hg hN
      | simp_all
  · intro hN
    by_cases hL : g.ball.isLaunched = true
    · have hcl := (collidedState_flags g).2.1
      simp only [update] at hN ⊢
      split_ifs at hN ⊢ <;> simp_all [resetBall, markScored, clearFlight]
    · have hL2 : g.ball.isLaunched = false := by
        simpa using hL
      rw [update_not_launched g hL2]
      exact hg hL2
  · intro hN
    simp [resetBall]
  · intro hN
    simp [handleResize, resetBall]

theorem velocity_zero_unless_launched_witness :
    velocityInv (onPointerDown rsState 5 5) ∧ velocityInv (onPointerMove rsState 5 5) ∧
    velocityInv (onPointerUp rsState) ∧ velocityInv (update rsState).1 ∧
    velocityInv (resetBall rsState) ∧ velocityInv (handleResize rsState 640 480) :=
  velocity_zero_unless_launched rsState 640 480 5 5
    (by norm_num [velocityInv, rsState])


/-- C10 (implicit): the pointer-down hit test ignores flight state — a
pointer within the ball radius starts a drag even while the ball is
launched, leaving position, velocity and the launched flag untouched; and
a subsequent pointer-up with drag magnitude above 5 overwrites the
velocity with `d * 0.06`, sets `canScore` and `scored` back to false, and
leaves the ball launched and un-reset (same position). -/
theorem midflight_grab_spec (g : GState) (x y : ℚ)
    (hin : (x - g.ball.x) ^ 2 + (y - g.ball.y) ^ 2 ≤ g.ball.radius ^ 2)
    (hL : g.ball.isLaunched = true)
    (hdrag : g.ball.isDragging = true)
    (hbig : (g.ball.dragCurrentX - g.ball.dragStartX) ^ 2 +
        (g.ball.dragCurrentY - g.ball.dragStartY) ^ 2 > 25) :
    ((onPointerDown g x y).ball.isDragging = true ∧
     (onPointerDown g x y).ball.isLaunched = true ∧
     (onPointerDown g x y).ball.x = g.ball.x ∧ (onPointerDown g x y).ball.y = g.ball.y ∧
     (onPointerDown g x y).ball.vx = g.ball.vx ∧ (onPointerDown g x y).ball.vy = g.ball.vy) ∧
    ((onPointerUp g).ball.vx = (g.ball.dragCurrentX - g.ball.dragStartX) * ((6 : ℚ) / 100) ∧
     (onPointerUp g).ball.vy = (g.ball.dragCurrentY - g.ball.dragStartY) * ((6 : ℚ) / 100) ∧
     (onPointerUp g).ball.canScore = false ∧ (onPointerUp g).ball.scored = false ∧
     (onPointerUp g).ball.isLaunched = true ∧
     (onPointerUp g).ball.x = g.ball.x ∧ (onPointerUp g).ball.y = g.ball.y) := by
  constructor
  · simp only [onPointerDown]
    rw [if_pos hin]
    exact ⟨rfl, hL, rfl, rfl, rfl, rfl⟩
  · simp only [onPointerUp]
    rw [if_pos hdrag, if_pos hbig]
    exact ⟨rfl, rfl, rfl, rfl, rfl, rfl, rfl⟩

theorem midflight_grab_spec_witness :
    (onPointerDown grabState 310 210).ball.isDragging = true ∧
    (onPointerDown grabState 310 210).ball.isLaunched = true ∧
    (onPointerUp grabState).ball.canScore = false ∧
    (onPointerUp grabState).ball.isLaunched = true ∧
    (onPointerUp grabState).ball.x = grabState.ball.x := by
  have h := midflight_grab_spec grabState 310 210
    (by norm_num [grabState]) (by norm_num [grabState])
    (by norm_num [grabState]) (by norm_num [grabState])
  exact ⟨h.1.1, h.1.2.1, h.2.2.2.1, h.2.2.2.2.2.1, h.2.2.2.2.2.2.1⟩

/-- C1 (amended): over any sequence of in-shot steps (animation frames,
the delayed post-score reset timer, viewport resizes, pointer-down and
pointer-move events) from any state, `onScore` is called at most once and
`onMiss` is called at most once; the claimed "exactly one `onScore` and no
`onMiss`" for a ball that rises above the hoop, reverses, and descends
through the scoring window does not hold (see the counterexample shot). -/
theorem shot_events_at_most_once (l : List Step) (g : GState) :
    (runSteps l g).2.1 ≤ 1 ∧ (runSteps l g).2.2 ≤ 1 :=
  ⟨runSteps_score_le_one l g, runSteps_miss_le_one l g⟩

end BB
